import Mathlib

/-! # resvg-qt: the `ResvgRenderer` wrapper of `ResvgQt.h`

A shallow embedding of `src/resvg-qt/c-api/ResvgQt.h`.

* The resvg C API (`extern "C"` block of the header) is an external engine.  It is
  a parameter of every operation (`ResvgPrivate.Engine`): nothing is assumed about
  what it returns unless a theorem says so in a hypothesis.
* The host (locale, bundled Qt resources, image allocator) is the parameter
  `ResvgPrivate.Env`.
* Pointers are `Option`s (`none` is the null pointer).  A C `double`/`qreal` is
  modelled by a rational number: the wrapper only stores and forwards such
  values, except for `96 * scaleFactor` and the rounding of `QSizeF::toSize`.
  A C `int` is an integer in the 32-bit range: `toInt` and `qRound` return one,
  and the members of a `QSize` carry the proof that they are in range.
* Calls with an effect outside the instance (allocation, release, parsing,
  painting) are recorded: every operation returns the list of calls it issued.
* `Q_UNREACHABLE()` is modelled by the result `none`.
* The life of an instance is a list of calls (`Session.Op`) between construction
  and destruction; ownership of handles and duplicated strings is checked along
  the recorded calls by `Session.treeMonitor` and `Session.stringMonitor`.
-/

/-! ## Qt value types used by the header -/

/-- Qt `qreal` (a C `double`), modelled by a rational number. -/
abbrev qreal := ℚ

/-- Qt `QString`; the null string `QString()` is the empty string. -/
abbrev QString := String

/-- Qt `QString::startsWith`: the characters of `s` begin with those of `pre`. -/
def QString.startsWith (s : QString) (pre : String) : Bool :=
  pre.toList.isPrefixOf s.toList

/-- Qt `QByteArray`. -/
abbrev QByteArray := List UInt8

/-- Qt `QSizeF`. -/
structure QSizeF where
  wd : qreal
  ht : qreal
deriving DecidableEq, Repr

/-- Default constructor `QSizeF()`.  Qt: "Constructs an invalid size"; both
members are initialised to `-1`. -/
def QSizeF.new : QSizeF := ⟨-1, -1⟩

/-- The values of a C++ `int`: 32 bits, two's complement. -/
abbrev isInt32 (i : Int) : Prop := -2147483648 ≤ i ∧ i ≤ 2147483647

/-- The `int` congruent to `i` modulo `2^32`. -/
def wrapInt (i : Int) : Int := (i + 2147483648) % 4294967296 - 2147483648

/-- Qt `QSize`: two `int`s, so both members are in the range of `int`. -/
structure QSize where
  wd : Int
  ht : Int
  wd_int : isInt32 wd := by decide
  ht_int : isInt32 ht := by decide
deriving DecidableEq, Repr

/-- Default constructor `QSize()`.  Qt: "Constructs a size with an invalid width
and height"; both members are initialised to `-1`. -/
def QSize.new : QSize := QSize.mk (-1) (-1)

/-- Qt `QSize::isValid()`: `wd >= 0 && ht >= 0`. -/
def QSize.isValid (s : QSize) : Bool := decide (0 ≤ s.wd) && decide (0 ≤ s.ht)

/-- Qt `QSize::isEmpty()`: `wd < 1 || ht < 1`. -/
def QSize.isEmpty (s : QSize) : Bool := decide (s.wd < 1) || decide (s.ht < 1)

/-- C++ conversion `int(double)`: truncation toward zero, to a 32-bit `int`.
C++ defines the conversion only when the truncated value is in the range of
`int`; outside it the model takes the `int` congruent modulo `2^32`, so that
the result is an `int` in every case. -/
def toInt (d : qreal) : Int := wrapInt (if 0 ≤ d then ⌊d⌋ else ⌈d⌉)

/-- Qt 5 `qRound(double d)`, which returns an `int`:
`d >= 0.0 ? int(d + 0.5) : int(d - double(int(d-1)) + 0.5) + int(d-1)`.
The sum of the two `int`s is an `int` addition, modulo `2^32`. -/
def qRound (d : qreal) : Int :=
  if d ≥ 0 then toInt (d + 1 / 2)
  else wrapInt (toInt (d - ((toInt (d - 1) : Int) : qreal) + 1 / 2) + toInt (d - 1))

/-- Qt `QSizeF::toSize()`: `QSize(qRound(wd), qRound(ht))`. -/
def QSizeF.toSize (s : QSizeF) : QSize :=
  { wd := qRound s.wd, ht := qRound s.ht,
    wd_int := by unfold qRound toInt wrapInt; split <;> constructor <;> omega,
    ht_int := by unfold qRound toInt wrapInt; split <;> constructor <;> omega }

/-- Qt `QRectF`, stored as `xp, yp, w, h`. -/
structure QRectF where
  xp : qreal
  yp : qreal
  w : qreal
  h : qreal
deriving DecidableEq, Repr

/-- Default constructor `QRectF()`: the null rectangle `(0, 0, 0, 0)`. -/
def QRectF.new : QRectF := ⟨0, 0, 0, 0⟩

/-- Qt `QRectF::size()`: `QSizeF(w, h)`. -/
def QRectF.size (r : QRectF) : QSizeF := ⟨r.w, r.h⟩

/-- Qt `QRect`, stored as the corners `x1, y1, x2, y2`. -/
structure QRect where
  x1 : Int
  y1 : Int
  x2 : Int
  y2 : Int
deriving DecidableEq, Repr

/-- Default constructor `QRect()`: the null rectangle, `x2 = y2 = -1`. -/
def QRect.new : QRect := ⟨0, 0, -1, -1⟩

/-- Qt `QRect::width()`: `x2 - x1 + 1`. -/
def QRect.width (r : QRect) : Int := r.x2 - r.x1 + 1

/-- Qt `QRect::height()`: `y2 - y1 + 1`. -/
def QRect.height (r : QRect) : Int := r.y2 - r.y1 + 1

/-- Qt `QTransform`, given by the six components of its affine constructor
`QTransform(m11, m12, m21, m22, dx, dy)`. -/
structure QTransform where
  m11 : qreal
  m12 : qreal
  m21 : qreal
  m22 : qreal
  dx : qreal
  dy : qreal
deriving DecidableEq, Repr

/-- Default constructor `QTransform()`: the identity matrix. -/
def QTransform.new : QTransform := ⟨1, 0, 0, 1, 0, 0⟩

/-- The part of a painter that `QPainter::save()` pushes and `restore()` pops. -/
structure PainterState where
  antialiasing : Bool
  /-- pen, brush, font, clip, transform, composition mode, ... (opaque) -/
  other : Nat
deriving DecidableEq, Repr

/-- Qt `QPainter`, reduced to what `render` touches. -/
structure QPainter where
  /-- Qt `isActive()`: a painter opened on a null image is not active -/
  active : Bool
  state : PainterState
  saved : List PainterState
  viewportRect : QRect
  /-- contents of the paint device (opaque) -/
  device : List Nat
deriving DecidableEq, Repr

/-- Qt `QPainter::save()`; a no-op (with a warning) on an inactive painter. -/
def QPainter.save (p : QPainter) : QPainter :=
  if p.active then { p with saved := p.state :: p.saved } else p

/-- Qt `QPainter::restore()`; a no-op (with a warning) on an inactive painter
or on an empty stack. -/
def QPainter.restore (p : QPainter) : QPainter :=
  if p.active then
    match p.saved with
    | [] => p
    | s :: rest => { p with state := s, saved := rest }
  else p

/-- Qt `QPainter::setRenderHint(QPainter::Antialiasing)` (the hint is switched
on); a no-op (with a warning) on an inactive painter. -/
def QPainter.setRenderHint_Antialiasing (p : QPainter) : QPainter :=
  if p.active then { p with state := { p.state with antialiasing := true } } else p

/-- Qt `QPainter::viewport()`; `QRect()` on an inactive painter. -/
def QPainter.viewport (p : QPainter) : QRect :=
  if p.active then p.viewportRect else QRect.new

/-- Qt `QImage`, reduced to its size and contents.  `size` is what
`QImage::size()` returns; it is `(0, 0)` for a null image. -/
structure QImage where
  isNull : Bool
  size : QSize
  pixels : List Nat
deriving DecidableEq, Repr

/-- C++ conversion `(uint)i` of an `int`: reduction modulo `2^32`. -/
def toUInt (i : Int) : Nat := (i % 2 ^ 32).toNat

/-- The C string seen through `const char *`: the text up to the first NUL. -/
def constData (text : QString) : String :=
  String.mk (text.toList.takeWhile (fun c => c != Char.ofNat 0))

namespace ResvgPrivate

/-! ## The C API declarations -/

/-- A non-null `resvg_render_tree *`. -/
abbrev Handle := Nat

def RESVG_OK : Int := 0
def RESVG_ERROR_NOT_AN_UTF8_STR : Int := 1
def RESVG_ERROR_FILE_WRITE_FAILED : Int := 2
def RESVG_ERROR_INVALID_FILE_SUFFIX : Int := 3
def RESVG_ERROR_MALFORMED_GZIP : Int := 4
def RESVG_ERROR_INVALID_SIZE : Int := 5
def RESVG_ERROR_PARSING_FAILED : Int := 6

structure resvg_color where
  r : Nat
  g : Nat
  b : Nat
deriving DecidableEq, Repr

inductive resvg_fit_to_type where
  | RESVG_FIT_TO_ORIGINAL
  | RESVG_FIT_TO_WIDTH
  | RESVG_FIT_TO_HEIGHT
  | RESVG_FIT_TO_ZOOM
deriving DecidableEq, Repr

structure resvg_fit_to where
  type : resvg_fit_to_type
  value : qreal
deriving DecidableEq, Repr

inductive resvg_shape_rendering where
  | RESVG_SHAPE_RENDERING_OPTIMIZE_SPEED
  | RESVG_SHAPE_RENDERING_CRISP_EDGES
  | RESVG_SHAPE_RENDERING_GEOMETRIC_PRECISION
deriving DecidableEq, Repr

inductive resvg_text_rendering where
  | RESVG_TEXT_RENDERING_OPTIMIZE_SPEED
  | RESVG_TEXT_RENDERING_OPTIMIZE_LEGIBILITY
  | RESVG_TEXT_RENDERING_GEOMETRIC_PRECISION
deriving DecidableEq, Repr

inductive resvg_image_rendering where
  | RESVG_IMAGE_RENDERING_OPTIMIZE_QUALITY
  | RESVG_IMAGE_RENDERING_OPTIMIZE_SPEED
deriving DecidableEq, Repr

structure resvg_options where
  path : Option String
  dpi : qreal
  font_family : Option String
  font_size : qreal
  languages : Option String
  shape_rendering : resvg_shape_rendering
  text_rendering : resvg_text_rendering
  image_rendering : resvg_image_rendering
  fit_to : resvg_fit_to
  draw_background : Bool
  background : resvg_color
  keep_named_groups : Bool
deriving DecidableEq, Repr

structure resvg_rect where
  x : qreal
  y : qreal
  width : qreal
  height : qreal
deriving DecidableEq, Repr

structure resvg_size where
  width : Nat
  height : Nat
deriving DecidableEq, Repr

structure resvg_transform where
  a : qreal
  b : qreal
  c : qreal
  d : qreal
  e : qreal
  f : qreal
deriving DecidableEq, Repr

/-- The external engine behind the C API.  A function with a `bool` result and
an out-parameter returns an `Option`; a parse entry point returns its `int`
status together with the value it leaves in `*tree` (which is null before the
call). -/
structure Engine where
  /-- the defaults `resvg_init_options` writes into `*opt` -/
  init_options : resvg_options
  parse_tree_from_file : String → resvg_options → Int × Option Handle
  parse_tree_from_data : QByteArray → resvg_options → Int × Option Handle
  is_image_empty : Handle → Bool
  get_image_size : Handle → resvg_size
  /-- called by `load` with `d->tree` unchecked, hence on a pointer -/
  get_image_viewbox : Option Handle → resvg_rect
  get_image_bbox : Handle → Option resvg_rect
  node_exists : Handle → String → Bool
  get_node_transform : Handle → String → Option resvg_transform
  get_node_bbox : Handle → String → Option resvg_rect
  qt_render_to_canvas : Handle → resvg_options → resvg_size → QPainter → QPainter

/-- Modelled from the spec: the contract of `resvg_is_image_empty`, whose body is
not in the header.  `hasNodes t` tells whether the tree `t` has renderable
nodes.  The header documents the check as "Checks that underling tree has any
nodes" and "Returns true if tree has any nodes" (lines 291-297), and the spec
has `isEmpty()` true when "the engine reports no renderable nodes", where the
code returns the negation of the engine's result (line 453).  So the result is
`true` exactly when the tree has nodes, and `false` reports that the document
has no renderable nodes. -/
def is_image_empty_contract (eng : Engine) (hasNodes : Handle → Bool) : Prop :=
  ∀ t : Handle, eng.is_image_empty t = hasNodes t

/-- The host the wrapper runs on. -/
structure Env where
  /-- Qt `QLocale().bcp47Name()` -/
  bcp47Name : QString
  /-- Qt `QFile(path).open(ReadOnly)` followed by `readAll()`; `none` when the file
  cannot be opened -/
  readFile : QString → Option QByteArray
  /-- whether a pixel buffer of the given (non-empty) size can be allocated -/
  canAllocate : QSize → Bool

/-- Calls with an effect outside the instance. -/
inductive Call where
  | init_options
  | qstrdup (s : String)
  | delete_array (s : String)
  | tree_destroy (h : Handle)
  | parse_tree_from_file (path : String) (opt : resvg_options)
  | parse_tree_from_data (data : QByteArray) (opt : resvg_options)
  | painter_save
  | painter_setRenderHint
  | painter_restore
  | qt_render_to_canvas (h : Handle) (opt : resvg_options) (size : resvg_size)
deriving DecidableEq, Repr

/-- Source `toCStr`: `qstrdup(text.toUtf8().constData())`. -/
def toCStr (text : QString) : String := constData text

/-! ## `class Data` -/

structure Data where
  tree : Option Handle
  opt : resvg_options
  scaleFactor : qreal
  viewBox : QRectF
  errMsg : QString
deriving DecidableEq, Repr

/-- Source `Data::init()`. -/
def Data.init (eng : Engine) (env : Env) (d : Data) : Data × List Call :=
  let opt := eng.init_options
  let opt := { opt with font_family := some "Times New Roman" }
  let opt := { opt with languages := some (toCStr env.bcp47Name) }
  let opt := { opt with dpi := 96 * d.scaleFactor }
  ({ d with opt := opt }, [Call.init_options, Call.qstrdup (toCStr env.bcp47Name)])

/-- Source `Data::clear()`. -/
def Data.clear (d : Data) : Data × List Call :=
  let c1 := match d.tree with
    | some h => [Call.tree_destroy h]
    | none => []
  let c2 := match d.opt.path with
    | some s => [Call.delete_array s]
    | none => []
  let c3 := match d.opt.languages with
    | some s => [Call.delete_array s]
    | none => []
  ({ d with tree := none, opt := { d.opt with path := none, languages := none },
            viewBox := QRectF.new, errMsg := "" },
   c1 ++ c2 ++ c3)

/-- Source `Data::reset()`. -/
def Data.reset (eng : Engine) (env : Env) (d : Data) : Data × List Call :=
  let r1 := Data.clear d
  let r2 := Data.init eng env r1.1
  (r2.1, r1.2 ++ r2.2)

/-- Source `Data::Data()`: the member initialisers, then `init()` (which overwrites the
uninitialised `opt`). -/
def Data.new (eng : Engine) (env : Env) : Data × List Call :=
  Data.init eng env
    { tree := none, opt := eng.init_options, scaleFactor := 1,
      viewBox := QRectF.new, errMsg := "" }

/-- Source `Data::~Data()`. -/
def Data.destroy (d : Data) : List Call := (Data.clear d).2

/-- Source `errorToString`; `none` is `Q_UNREACHABLE()`. -/
def errorToString (err : Int) : Option QString :=
  if err = RESVG_OK then some ""
  else if err = RESVG_ERROR_NOT_AN_UTF8_STR then
    some "The SVG content has not an UTF-8 encoding."
  else if err = RESVG_ERROR_FILE_WRITE_FAILED then
    some "Failed to write to the file."
  else if err = RESVG_ERROR_INVALID_FILE_SUFFIX then
    some "Invalid file suffix."
  else if err = RESVG_ERROR_MALFORMED_GZIP then
    some "Not a GZip compressed data."
  else if err = RESVG_ERROR_INVALID_SIZE then
    some "SVG doesn't have a valid size."
  else if err = RESVG_ERROR_PARSING_FAILED then
    some "Failed to parse an SVG data."
  else none

end ResvgPrivate

/-- Qt `QImage(const QSize &, Format)` followed by `fill(Qt::transparent)`.  Qt
returns the null image, whose `size()` is `(0, 0)`, when the requested size is
empty (`QSize::isEmpty()`) or when the buffer cannot be allocated. -/
def QImage.create (env : ResvgPrivate.Env) (s : QSize) : QImage :=
  if s.isEmpty || !env.canAllocate s then
    { isNull := true, size := QSize.mk 0 0, pixels := [] }
  else { isNull := false, size := s, pixels := List.replicate (s.wd.toNat * s.ht.toNat) 0 }

/-- Qt `QPainter p(&img)`: a painter with default state whose viewport is the
whole image; it is not active on a null image. -/
def QPainter.begin (img : QImage) : QPainter :=
  { active := !img.isNull, state := ⟨false, 0⟩, saved := [],
    viewportRect := ⟨0, 0, img.size.wd - 1, img.size.ht - 1⟩, device := img.pixels }

/-- Qt `QPainter::end()` on a painter opened on `img`: what was painted is now
the contents of the image. -/
def QPainter.end_ (p : QPainter) (img : QImage) : QImage :=
  if p.active then { img with pixels := p.device } else img

namespace ResvgRenderer

open ResvgPrivate

/-! ## `class ResvgRenderer`

The only member is `d`, so a method is a function of the `Data` it points to. -/

/-- What a non-`const` method leaves behind: its return value, the new `Data`
and the calls it issued, oldest first. -/
structure Result (α : Type) where
  ret : α
  d : Data
  calls : List Call
deriving DecidableEq, Repr

/-- Source `ResvgRenderer::ResvgRenderer()`. -/
def new (eng : Engine) (env : Env) : Data × List Call := Data.new eng env

/-- Source `bool ResvgRenderer::load(const QByteArray &data)`. -/
def load_QByteArray (eng : Engine) (env : Env) (d : Data) (data : QByteArray) :
    Option (Result Bool) :=
  let r := Data.reset eng env d
  let d1 := r.1
  let res := eng.parse_tree_from_data data d1.opt
  let err := res.1
  let d2 := { d1 with tree := res.2 }
  let calls := r.2 ++ [Call.parse_tree_from_data data d1.opt]
  if err ≠ RESVG_OK then
    match errorToString err with
    | some msg => some ⟨false, { d2 with errMsg := msg }, calls⟩
    | none => none
  else
    let vb := eng.get_image_viewbox d2.tree
    some ⟨true, { d2 with viewBox := ⟨vb.x, vb.y, vb.width, vb.height⟩ }, calls⟩

/-- Source `bool ResvgRenderer::load(const QString &filePath)`. -/
def load_QString (eng : Engine) (env : Env) (d : Data) (filePath : QString) :
    Option (Result Bool) :=
  if QString.startsWith filePath ":/" then
    match env.readFile filePath with
    | some bytes => load_QByteArray eng env d bytes
    | none => some ⟨false, d, []⟩
  else
    let r := Data.reset eng env d
    let path := toCStr filePath
    let d1 := { r.1 with opt := { r.1.opt with path := some path } }
    let res := eng.parse_tree_from_file path d1.opt
    let err := res.1
    let d2 := { d1 with tree := res.2 }
    let calls := r.2 ++ [Call.qstrdup path, Call.parse_tree_from_file path d1.opt]
    if err ≠ RESVG_OK then
      match errorToString err with
      | some msg => some ⟨false, { d2 with errMsg := msg }, calls⟩
      | none => none
    else
      let vb := eng.get_image_viewbox d2.tree
      some ⟨true, { d2 with viewBox := ⟨vb.x, vb.y, vb.width, vb.height⟩ }, calls⟩

/-- Source `bool ResvgRenderer::isValid() const`. -/
def isValid (d : Data) : Bool := d.tree.isSome

/-- Source `QString ResvgRenderer::errorString() const`. -/
def errorString (d : Data) : QString := d.errMsg

/-- Source `bool ResvgRenderer::isEmpty() const`. -/
def isEmpty (eng : Engine) (d : Data) : Bool :=
  match d.tree with
  | some h => !eng.is_image_empty h
  | none => true

/-- Source `QSizeF ResvgRenderer::defaultSizeF() const`. -/
def defaultSizeF (d : Data) : QSizeF :=
  match d.tree with
  | some _ => d.viewBox.size
  | none => QSizeF.new

/-- Source `QSize ResvgRenderer::defaultSize() const`. -/
def defaultSize (d : Data) : QSize := (defaultSizeF d).toSize

/-- Source `QRectF ResvgRenderer::viewBoxF() const`. -/
def viewBoxF (d : Data) : QRectF :=
  match d.tree with
  | some _ => d.viewBox
  | none => QRectF.new

/-- Source `QRectF ResvgRenderer::boundsOnElement(const QString &id) const`. -/
def boundsOnElement (eng : Engine) (d : Data) (id : QString) : QRectF :=
  match d.tree with
  | none => QRectF.new
  | some h =>
    match eng.get_node_bbox h (constData id) with
    | some bbox => ⟨bbox.x, bbox.y, bbox.height, bbox.width⟩
    | none => QRectF.new

/-- Source `QRectF ResvgRenderer::boundingBox() const`. -/
def boundingBox (eng : Engine) (d : Data) : QRectF :=
  match d.tree with
  | none => QRectF.new
  | some h =>
    match eng.get_image_bbox h with
    | some bbox => ⟨bbox.x, bbox.y, bbox.height, bbox.width⟩
    | none => QRectF.new

/-- Source `bool ResvgRenderer::elementExists(const QString &id) const`. -/
def elementExists (eng : Engine) (d : Data) (id : QString) : Bool :=
  match d.tree with
  | none => false
  | some h => eng.node_exists h (constData id)

/-- Source `QTransform ResvgRenderer::transformForElement(const QString &id) const`. -/
def transformForElement (eng : Engine) (d : Data) (id : QString) : QTransform :=
  match d.tree with
  | none => QTransform.new
  | some h =>
    match eng.get_node_transform h (constData id) with
    | some ts => ⟨ts.a, ts.b, ts.c, ts.d, ts.e, ts.f⟩
    | none => QTransform.new

/-- Source `void ResvgRenderer::setDevicePixelRatio(qreal scaleFactor)`. -/
def setDevicePixelRatio (d : Data) (scaleFactor : qreal) : Data :=
  { d with scaleFactor := scaleFactor }

/-- Source `void ResvgRenderer::render(QPainter *p) const`: the painter afterwards and
the calls issued. -/
def render (eng : Engine) (d : Data) (p : QPainter) : QPainter × List Call :=
  match d.tree with
  | none => (p, [])
  | some h =>
    let p1 := p.save
    let p2 := p1.setRenderHint_Antialiasing
    let r := p2.viewport
    let imgSize : resvg_size := ⟨toUInt r.width, toUInt r.height⟩
    let p3 := eng.qt_render_to_canvas h d.opt imgSize p2
    let p4 := p3.restore
    (p4, [Call.painter_save, Call.painter_setRenderHint,
          Call.qt_render_to_canvas h d.opt imgSize, Call.painter_restore])

/-- The size `renderToImage` passes to the `QImage` constructor:
`size.isValid() ? size : defaultSize()`. -/
def renderToImage_size (d : Data) (size : QSize) : QSize :=
  if size.isValid then size else defaultSize d

/-- Source `QImage ResvgRenderer::renderToImage(const QSize &size) const`: the image
and the calls issued. -/
def renderToImage (eng : Engine) (env : Env) (d : Data) (size : QSize) :
    QImage × List Call :=
  let s := renderToImage_size d size
  let img := QImage.create env s
  let p := QPainter.begin img
  let r := render eng d p
  (QPainter.end_ r.1 img, r.2)

/-! ### The bodies of the query methods, with `*d` threaded

A method reaches the members through the pointer `d`, and `const` on the method
does not make the `Data` behind `d` constant.  Here each body is translated
statement by statement over a state of type `Data`: `get` reads through `d->`,
`modify` would assign through it, and the `Data` a body leaves is computed, not
stipulated. -/

/-- A method body: from the `Data` behind `d` to the value returned and the
`Data` left behind. -/
abbrev Method (α : Type) := StateM Data α

namespace Body

/-- Source `bool ResvgRenderer::isValid() const`. -/
def isValid : Method Bool := do
  let d ← get
  return d.tree.isSome

/-- Source `QString ResvgRenderer::errorString() const`. -/
def errorString : Method QString := do
  let d ← get
  return d.errMsg

/-- Source `bool ResvgRenderer::isEmpty() const`. -/
def isEmpty (eng : Engine) : Method Bool := do
  let d ← get
  match d.tree with
  | some t => return !eng.is_image_empty t
  | none => return true

/-- Source `QSizeF ResvgRenderer::defaultSizeF() const`. -/
def defaultSizeF : Method QSizeF := do
  let d ← get
  match d.tree with
  | some _ => return d.viewBox.size
  | none => return QSizeF.new

/-- Source `QSize ResvgRenderer::defaultSize() const`. -/
def defaultSize : Method QSize := do
  let s ← defaultSizeF
  return s.toSize

/-- Source `QRectF ResvgRenderer::viewBoxF() const`. -/
def viewBoxF : Method QRectF := do
  let d ← get
  match d.tree with
  | some _ => return d.viewBox
  | none => return QRectF.new

/-- Source `QRectF ResvgRenderer::boundsOnElement(const QString &id) const`. -/
def boundsOnElement (eng : Engine) (id : QString) : Method QRectF := do
  let d ← get
  match d.tree with
  | none => return QRectF.new
  | some t =>
    let rawId := constData id
    match eng.get_node_bbox t rawId with
    | some bbox => return ⟨bbox.x, bbox.y, bbox.height, bbox.width⟩
    | none => return QRectF.new

/-- Source `QRectF ResvgRenderer::boundingBox() const`. -/
def boundingBox (eng : Engine) : Method QRectF := do
  let d ← get
  match d.tree with
  | none => return QRectF.new
  | some t =>
    match eng.get_image_bbox t with
    | some bbox => return ⟨bbox.x, bbox.y, bbox.height, bbox.width⟩
    | none => return QRectF.new

/-- Source `bool ResvgRenderer::elementExists(const QString &id) const`. -/
def elementExists (eng : Engine) (id : QString) : Method Bool := do
  let d ← get
  match d.tree with
  | none => return false
  | some t =>
    let rawId := constData id
    return eng.node_exists t rawId

/-- Source `QTransform ResvgRenderer::transformForElement(const QString &id) const`. -/
def transformForElement (eng : Engine) (id : QString) : Method QTransform := do
  let d ← get
  match d.tree with
  | none => return QTransform.new
  | some t =>
    let rawId := constData id
    match eng.get_node_transform t rawId with
    | some ts => return ⟨ts.a, ts.b, ts.c, ts.d, ts.e, ts.f⟩
    | none => return QTransform.new

/-- Source `void ResvgRenderer::setDevicePixelRatio(qreal scaleFactor)`: the one
method of the header, besides `load`, whose body assigns through `d`. -/
def setDevicePixelRatio (scaleFactor : qreal) : Method Unit :=
  modify fun d => { d with scaleFactor := scaleFactor }

end Body

end ResvgRenderer

/-! ## A concrete engine and host

Used to evaluate the definitions on concrete inputs. -/

namespace Demo

open ResvgPrivate

/-- The defaults the demo engine writes in `resvg_init_options`. -/
def options : resvg_options :=
  { path := none, dpi := 96, font_family := none, font_size := 12, languages := none,
    shape_rendering := resvg_shape_rendering.RESVG_SHAPE_RENDERING_GEOMETRIC_PRECISION,
    text_rendering := resvg_text_rendering.RESVG_TEXT_RENDERING_OPTIMIZE_LEGIBILITY,
    image_rendering := resvg_image_rendering.RESVG_IMAGE_RENDERING_OPTIMIZE_QUALITY,
    fit_to := ⟨resvg_fit_to_type.RESVG_FIT_TO_ORIGINAL, 0⟩,
    draw_background := false, background := ⟨0, 0, 0⟩, keep_named_groups := false }

/-- The trees of the demo engine that have renderable nodes: only the tree 1. -/
def hasNodes (t : Handle) : Bool := decide (t = 1)

/-- An engine that parses every non-empty payload and the file `a.svg`:
the payload `[0]` gives the tree 2, which has no nodes, every other success
gives the tree 1, which has the view-box `(0, 0, 100, 100)` and the node
`rect1`.  Everything else fails with `RESVG_ERROR_PARSING_FAILED`.
Its `resvg_is_image_empty` keeps `is_image_empty_contract`: it returns `true`
exactly for the tree that has nodes. -/
def engine : Engine where
  init_options := options
  parse_tree_from_file path _ := if path = "a.svg" then (0, some 1) else (6, none)
  parse_tree_from_data data _ :=
    if data = [] then (6, none) else if data = [0] then (0, some 2) else (0, some 1)
  is_image_empty h := hasNodes h
  get_image_size _ := ⟨100, 100⟩
  get_image_viewbox _ := ⟨0, 0, 100, 100⟩
  get_image_bbox h := if h = 2 then none else some ⟨10, 20, 30, 40⟩
  node_exists h id := decide (h = 1) && decide (id = "rect1")
  get_node_transform h id :=
    if h = 1 ∧ id = "rect1" then some ⟨1, 0, 0, 1, 5, 7⟩ else none
  get_node_bbox h id :=
    if h = 1 ∧ id = "rect1" then some ⟨10, 20, 30, 40⟩ else none
  qt_render_to_canvas _ _ _ p := { p with device := p.device.map (fun _ => 255) }

/-- The demo engine, except that the view-box it reports is
`(0, 0, 2147483648, 100)`: a width of `2^31`, one more than the largest `int`. -/
def engineHuge : Engine :=
  { engine with get_image_viewbox := fun _ => ⟨0, 0, 2147483648, 100⟩ }

/-- A host with the locale `en`, no bundled resource, and room for images of up
to 4096 x 4096 pixels. -/
def env : Env where
  bcp47Name := "en"
  readFile _ := none
  canAllocate s := decide (s.wd ≤ 4096) && decide (s.ht ≤ 4096)

/-- The options of an instance after `reset` on the demo host (scale factor 1). -/
def resetOptions : resvg_options :=
  { options with font_family := some "Times New Roman", languages := some "en",
                 dpi := 96 * 1 }

/-- A freshly constructed instance. -/
def fresh : Data :=
  { tree := none, opt := resetOptions, scaleFactor := 1, viewBox := QRectF.new, errMsg := "" }

/-- The instance after a successful load of a payload that gives the tree 1. -/
def loaded : Data :=
  { tree := some 1, opt := resetOptions, scaleFactor := 1, viewBox := ⟨0, 0, 100, 100⟩,
    errMsg := "" }

/-- The instance after a successful load of the payload `[0]`: the tree 2, which
has no nodes. -/
def loadedEmpty : Data :=
  { tree := some 2, opt := resetOptions, scaleFactor := 1, viewBox := ⟨0, 0, 100, 100⟩,
    errMsg := "" }

/-- The instance after a failed load of the empty payload. -/
def failed : Data :=
  { tree := none, opt := resetOptions, scaleFactor := 1, viewBox := QRectF.new,
    errMsg := "Failed to parse an SVG data." }

end Demo

/-! ## Sequences of operations on one instance -/

namespace Session

open ResvgPrivate ResvgRenderer

/-- What a public method returns. -/
inductive Value where
  | void
  | bool (b : Bool)
  | string (s : QString)
  | sizeF (s : QSizeF)
  | size (s : QSize)
  | rectF (r : QRectF)
  | transform (t : QTransform)
  | painter (p : QPainter)
  | image (i : QImage)
deriving DecidableEq, Repr

/-- One call on an instance: a public method of `ResvgRenderer` with its
arguments, or `Data::reset()`.  For `render` the argument is the painter
pointed to, and the painter afterwards is the value returned. -/
inductive Op where
  | load_QString (filePath : QString)
  | load_QByteArray (data : QByteArray)
  | reset
  | setDevicePixelRatio (scaleFactor : qreal)
  | isValid
  | errorString
  | isEmpty
  | defaultSize
  | defaultSizeF
  | viewBoxF
  | boundsOnElement (id : QString)
  | boundingBox
  | elementExists (id : QString)
  | transformForElement (id : QString)
  | render (p : QPainter)
  | renderToImage (size : QSize)
deriving DecidableEq, Repr

/-- The queries named `isValid` .. `transformForElement` in the header. -/
def Op.isQuery : Op → Bool
  | Op.isValid => true
  | Op.errorString => true
  | Op.isEmpty => true
  | Op.defaultSize => true
  | Op.defaultSizeF => true
  | Op.viewBoxF => true
  | Op.boundsOnElement _ => true
  | Op.boundingBox => true
  | Op.elementExists _ => true
  | Op.transformForElement _ => true
  | _ => false

/-- One call: the value returned, the `Data` afterwards and the calls issued;
`none` when `Q_UNREACHABLE()` is reached.  A query runs its body
(`ResvgRenderer.Body`) on `d`: the value and the `Data` afterwards are what the
body leaves. -/
def step (eng : Engine) (env : Env) (d : Data) : Op → Option (Result Value)
  | Op.load_QString filePath =>
    match load_QString eng env d filePath with
    | some r => some ⟨Value.bool r.ret, r.d, r.calls⟩
    | none => none
  | Op.load_QByteArray data =>
    match load_QByteArray eng env d data with
    | some r => some ⟨Value.bool r.ret, r.d, r.calls⟩
    | none => none
  | Op.reset => some ⟨Value.void, (Data.reset eng env d).1, (Data.reset eng env d).2⟩
  | Op.setDevicePixelRatio s => some ⟨Value.void, setDevicePixelRatio d s, []⟩
  | Op.isValid =>
    some ⟨Value.bool ((Body.isValid).run d).1, ((Body.isValid).run d).2, []⟩
  | Op.errorString =>
    some ⟨Value.string ((Body.errorString).run d).1, ((Body.errorString).run d).2, []⟩
  | Op.isEmpty =>
    some ⟨Value.bool ((Body.isEmpty eng).run d).1, ((Body.isEmpty eng).run d).2, []⟩
  | Op.defaultSize =>
    some ⟨Value.size ((Body.defaultSize).run d).1, ((Body.defaultSize).run d).2, []⟩
  | Op.defaultSizeF =>
    some ⟨Value.sizeF ((Body.defaultSizeF).run d).1, ((Body.defaultSizeF).run d).2, []⟩
  | Op.viewBoxF =>
    some ⟨Value.rectF ((Body.viewBoxF).run d).1, ((Body.viewBoxF).run d).2, []⟩
  | Op.boundsOnElement id =>
    some ⟨Value.rectF ((Body.boundsOnElement eng id).run d).1, ((Body.boundsOnElement eng id).run d).2, []⟩
  | Op.boundingBox =>
    some ⟨Value.rectF ((Body.boundingBox eng).run d).1, ((Body.boundingBox eng).run d).2, []⟩
  | Op.elementExists id =>
    some ⟨Value.bool ((Body.elementExists eng id).run d).1, ((Body.elementExists eng id).run d).2, []⟩
  | Op.transformForElement id =>
    some ⟨Value.transform ((Body.transformForElement eng id).run d).1, ((Body.transformForElement eng id).run d).2, []⟩
  | Op.render p => some ⟨Value.painter (render eng d p).1, d, (render eng d p).2⟩
  | Op.renderToImage size =>
    some ⟨Value.image (renderToImage eng env d size).1, d, (renderToImage eng env d size).2⟩

/-- A sequence of calls from the state `d`: the state at the end and all the
calls issued, oldest first. -/
def run (eng : Engine) (env : Env) : Data → List Op → Option (Data × List Call)
  | d, [] => some (d, [])
  | d, op :: ops =>
    match step eng env d op with
    | none => none
    | some r =>
      match run eng env r.d ops with
      | none => none
      | some res => some (res.1, r.calls ++ res.2)

/-- The life of one instance: construction, the calls `ops`, destruction.  The
result is every call issued, oldest first. -/
def session (eng : Engine) (env : Env) (ops : List Op) : Option (List Call) :=
  match run eng env (ResvgRenderer.new eng env).1 ops with
  | none => none
  | some res => some ((ResvgRenderer.new eng env).2 ++ res.2 ++ Data.destroy res.1)

/-- The handle a recorded call makes the engine produce: what a parse entry
point leaves in `*tree`. -/
def produced (eng : Engine) : Call → Option Handle
  | Call.parse_tree_from_file path opt => (eng.parse_tree_from_file path opt).2
  | Call.parse_tree_from_data data opt => (eng.parse_tree_from_data data opt).2
  | _ => none

/-- Ownership of handles along a list of calls, from the live handle `live`
(`none`: no handle is live).  A parse call that produces a handle needs that no
handle is live and makes the new one live; `tree_destroy h` needs that `h` is
the live handle and leaves none live.  The result is the live handle at the
end, or `none` when a call breaks one of these rules. -/
def treeMonitor (eng : Engine) : Option Handle → List Call → Option (Option Handle)
  | live, [] => some live
  | live, Call.tree_destroy h :: cs =>
    if live = some h then treeMonitor eng none cs else none
  | live, c :: cs =>
    match produced eng c with
    | none => treeMonitor eng live cs
    | some h => if live = none then treeMonitor eng (some h) cs else none

/-- Ownership of duplicated strings along a list of calls, from the strings
`live` allocated and not yet released.  `qstrdup s` allocates a copy of `s`;
`delete[]` of `s` needs a live copy of `s` and releases one.  The result is the
live strings at the end, or `none` when a `delete[]` has no live copy. -/
def stringMonitor : List String → List Call → Option (List String)
  | live, [] => some live
  | live, Call.qstrdup s :: cs => stringMonitor (s :: live) cs
  | live, Call.delete_array s :: cs =>
    if s ∈ live then stringMonitor (live.erase s) cs else none
  | live, _ :: cs => stringMonitor live cs

/-- The duplicated strings an instance owns: the source path and the language
tag of its options, when not null. -/
def ownedStrings (d : Data) : List String :=
  d.opt.path.toList ++ d.opt.languages.toList

/-- The engine returns only the seven declared status codes. -/
def DeclaredStatus (eng : Engine) : Prop :=
  (∀ data opt, 0 ≤ (eng.parse_tree_from_data data opt).1 ∧
    (eng.parse_tree_from_data data opt).1 ≤ 6) ∧
  (∀ path opt, 0 ≤ (eng.parse_tree_from_file path opt).1 ∧
    (eng.parse_tree_from_file path opt).1 ≤ 6)

/-- The engine leaves a non-null handle in `*tree` exactly when it returns
`RESVG_OK`. -/
def HandleIffOk (eng : Engine) : Prop :=
  (∀ data opt, (eng.parse_tree_from_data data opt).2 ≠ none ↔
    (eng.parse_tree_from_data data opt).1 = RESVG_OK) ∧
  (∀ path opt, (eng.parse_tree_from_file path opt).2 ≠ none ↔
    (eng.parse_tree_from_file path opt).1 = RESVG_OK)

/-- The invariant of C18: a non-null handle comes with an empty error string, and
a null handle with the zero view-box. -/
def Inv (d : Data) : Prop :=
  (d.tree ≠ none → d.errMsg = "") ∧ (d.tree = none → d.viewBox = QRectF.new)

end Session

namespace Demo

open ResvgPrivate

/-- The demo host with one bundled resource, `:/icon.svg`, of contents `[60]`. -/
def envWithResource : Env where
  bcp47Name := "en"
  readFile path := if path = ":/icon.svg" then some [60] else none
  canAllocate s := decide (s.wd ≤ 4096) && decide (s.ht ≤ 4096)

/-- An active painter on a 4 x 3 device, antialiasing off, nothing saved. -/
def painter : QPainter :=
  { active := true, state := ⟨false, 7⟩, saved := [], viewportRect := ⟨0, 0, 3, 2⟩,
    device := List.replicate 12 0 }

end Demo

/-! ## Theorems -/

open ResvgPrivate ResvgRenderer

/-- C5: `errorToString` returns a message (never reaches `Q_UNREACHABLE`) on each
of the seven status codes 0..6; it maps `RESVG_OK` (0) to the empty string and
the codes 1..6 to the six fixed sentences of the header.  It has no argument
besides the code, so no instance state can influence it. -/
theorem errorToString_total_table :
    (∀ k : Fin 7, (errorToString (k.val : Int)).isSome = true) ∧
    errorToString RESVG_OK = some "" ∧
    errorToString 0 = some "" ∧
    errorToString 1 = some "The SVG content has not an UTF-8 encoding." ∧
    errorToString 2 = some "Failed to write to the file." ∧
    errorToString 3 = some "Invalid file suffix." ∧
    errorToString 4 = some "Not a GZip compressed data." ∧
    errorToString 5 = some "SVG doesn't have a valid size." ∧
    errorToString 6 = some "Failed to parse an SVG data." := by
  refine ⟨by decide, ?_, ?_, ?_, ?_, ?_, ?_, ?_, ?_⟩ <;> decide

/-! ### Auxiliary facts -/

theorem wrapInt_of_isInt32 (i : Int) (h : isInt32 i) : wrapInt i = i := by
  obtain ⟨h1, h2⟩ := h
  unfold wrapInt
  omega

theorem toInt_intCast (n : Int) (h : isInt32 n) : toInt (n : qreal) = n := by
  unfold toInt
  split_ifs <;> simp [wrapInt_of_isInt32 n h]

theorem floor_intCast_add_half (n : Int) : ⌊(n : ℚ) + 1 / 2⌋ = n := by
  rw [Int.floor_eq_iff]; constructor <;> norm_num

/-- Rounding by `qRound` leaves an integer-valued argument unchanged when the
integer is an `int` other than `INT_MIN` (for `INT_MIN` the conversion
`int(d-1)` inside `qRound` is out of range). -/
theorem qRound_intCast (n : Int) (h1 : -2147483647 ≤ n) (h2 : n ≤ 2147483647) :
    qRound (n : qreal) = n := by
  unfold qRound
  by_cases h : (n : qreal) ≥ 0
  · rw [if_pos h]
    have h3 : (0 : qreal) ≤ (n : qreal) + 1 / 2 := by linarith
    unfold toInt
    rw [if_pos h3, floor_intCast_add_half]
    exact wrapInt_of_isInt32 n ⟨by omega, h2⟩
  · rw [if_neg h]
    have hneg : n < 0 := by
      by_contra hc
      exact h (by exact_mod_cast (not_lt.mp hc))
    have e1 : ((n : qreal) - 1) = ((n - 1 : Int) : qreal) := by push_cast; ring
    rw [e1, toInt_intCast (n - 1) ⟨by omega, by omega⟩]
    have e2 : (n : qreal) - ((n - 1 : Int) : qreal) + 1 / 2 = ((1 : Int) : qreal) + 1 / 2 := by
      push_cast; ring
    rw [e2]
    have h3 : (0 : qreal) ≤ ((1 : Int) : qreal) + 1 / 2 := by norm_num
    have e3 : toInt (((1 : Int) : qreal) + 1 / 2) = 1 := by
      unfold toInt
      rw [if_pos h3, floor_intCast_add_half]
      exact wrapInt_of_isInt32 1 (by decide)
    rw [e3]
    have e4 : (1 : Int) + (n - 1) = n := by ring
    rw [e4]
    exact wrapInt_of_isInt32 n ⟨by omega, h2⟩

theorem qRound_neg_one : qRound (-1) = -1 := by
  have h := qRound_intCast (-1) (by decide) (by decide)
  simpa using h

theorem reset_tree (eng : Engine) (env : Env) (d : Data) :
    (Data.reset eng env d).1.tree = none := rfl

theorem reset_viewBox (eng : Engine) (env : Env) (d : Data) :
    (Data.reset eng env d).1.viewBox = QRectF.new := rfl

theorem reset_errMsg (eng : Engine) (env : Env) (d : Data) :
    (Data.reset eng env d).1.errMsg = "" := rfl

theorem reset_scaleFactor (eng : Engine) (env : Env) (d : Data) :
    (Data.reset eng env d).1.scaleFactor = d.scaleFactor := rfl

/-- The calls of `reset` start with the release of the handle the instance held. -/
theorem reset_calls_of_tree (eng : Engine) (env : Env) (d : Data) (h : Handle)
    (ht : d.tree = some h) :
    ∃ rest, (Data.reset eng env d).2 = Call.tree_destroy h :: rest := by
  simp [Data.reset, Data.clear, ht]

/-! ### The claims -/

/-- C1 (the code at the failing input): on the demo host the resource
`:/missing.svg` cannot be opened.  Starting from a new instance, a load of the
payload `[60]` succeeds; the following `load(":/missing.svg")` returns `false`,
yet the instance is still valid, still reports the old view-box
`(0, 0, 100, 100)`, and no call was issued, so the handle was not released. -/
theorem load_QString_unopenable_resource_keeps_state :
    ∃ r0 r1,
      load_QByteArray Demo.engine Demo.env (ResvgRenderer.new Demo.engine Demo.env).1 [60]
        = some r0 ∧
      r0.ret = true ∧ r0.d.tree = some 1 ∧
      load_QString Demo.engine Demo.env r0.d ":/missing.svg" = some r1 ∧
      r1.ret = false ∧
      isValid r1.d = true ∧
      viewBoxF r1.d = ⟨0, 0, 100, 100⟩ ∧
      r1.d.tree = some 1 ∧
      r1.calls = [] :=
  ⟨_, _, rfl, rfl, rfl, rfl, rfl, rfl, rfl, rfl, rfl⟩

/-- C2 (the code at the failing input): on the demo host the resource
`:/missing.svg` cannot be opened.  On a new instance `load(":/missing.svg")`
returns `false` and `errorString()` is still empty. -/
theorem load_QString_unopenable_resource_no_error :
    ∃ r,
      load_QString Demo.engine Demo.env (ResvgRenderer.new Demo.engine Demo.env).1
        ":/missing.svg" = some r ∧
      r.ret = false ∧
      errorString r.d = "" :=
  ⟨_, rfl, rfl, rfl⟩

/-- C3: whatever the starting state, when `resvg_parse_tree_from_data` returns
one of the six error codes and leaves `*tree` null, `load(bytes)` returns
`false`, `isValid()` is `false` afterwards and `errorString()` is
`errorToString` of that code; for `RESVG_ERROR_PARSING_FAILED` it is
"Failed to parse an SVG data.". -/
theorem load_QByteArray_engine_error (eng : Engine) (env : Env) (d : Data)
    (data : QByteArray) (s : Int)
    (hs : s = RESVG_ERROR_NOT_AN_UTF8_STR ∨ s = RESVG_ERROR_FILE_WRITE_FAILED ∨
          s = RESVG_ERROR_INVALID_FILE_SUFFIX ∨ s = RESVG_ERROR_MALFORMED_GZIP ∨
          s = RESVG_ERROR_INVALID_SIZE ∨ s = RESVG_ERROR_PARSING_FAILED)
    (hparse : eng.parse_tree_from_data data (Data.reset eng env d).1.opt = (s, none)) :
    ∃ r, load_QByteArray eng env d data = some r ∧
      r.ret = false ∧
      isValid r.d = false ∧
      errorToString s = some (errorString r.d) ∧
      (s = RESVG_ERROR_PARSING_FAILED → errorString r.d = "Failed to parse an SVG data.") := by
  unfold load_QByteArray
  simp only [hparse]
  rcases hs with h | h | h | h | h | h <;> subst h <;>
    simp [errorToString, isValid, errorString, RESVG_OK, RESVG_ERROR_NOT_AN_UTF8_STR,
      RESVG_ERROR_FILE_WRITE_FAILED, RESVG_ERROR_INVALID_FILE_SUFFIX,
      RESVG_ERROR_MALFORMED_GZIP, RESVG_ERROR_INVALID_SIZE, RESVG_ERROR_PARSING_FAILED]

/-- C3 at a concrete input: the loaded demo instance and the empty payload, which
the demo engine rejects with `RESVG_ERROR_PARSING_FAILED`. -/
theorem load_QByteArray_engine_error_witness :
    ∃ r, load_QByteArray Demo.engine Demo.env Demo.loaded [] = some r ∧
      r.ret = false ∧
      isValid r.d = false ∧
      errorToString RESVG_ERROR_PARSING_FAILED = some (errorString r.d) ∧
      (RESVG_ERROR_PARSING_FAILED = RESVG_ERROR_PARSING_FAILED →
        errorString r.d = "Failed to parse an SVG data.") :=
  load_QByteArray_engine_error Demo.engine Demo.env Demo.loaded []
    RESVG_ERROR_PARSING_FAILED (by simp) rfl

/-- C4 (the claim fails): Qt's `qRound` returns a 32-bit `int`.  A demo engine that
reports the integer-valued view-box `(0, 0, 2147483648, 100)` makes `load`
succeed with `viewBoxF() == (0, 0, 2147483648, 100)` and
`defaultSizeF() == (2147483648, 100)`, but the width of `defaultSize()` is not
2147483648. -/
theorem load_engine_ok_counterexample :
    ∃ r, load_QByteArray Demo.engineHuge Demo.env Demo.fresh [60] = some r ∧
      r.ret = true ∧ isValid r.d = true ∧
      viewBoxF r.d = ⟨0, 0, 2147483648, 100⟩ ∧
      defaultSizeF r.d = ⟨2147483648, 100⟩ ∧
      (defaultSize r.d).wd ≠ 2147483648 := by
  refine ⟨_, rfl, rfl, rfl, rfl, rfl, ?_⟩
  · intro h
    have hb := (defaultSize
      { Demo.fresh with tree := some 1, viewBox := ⟨0, 0, 2147483648, 100⟩ }).wd_int
    have h' : (defaultSize
      { Demo.fresh with tree := some 1, viewBox := ⟨0, 0, 2147483648, 100⟩ }).wd
        = 2147483648 := h
    omega

/-- C4 (amended): whatever the starting state, when the parse entry point (of the
bytes overload, or of the file-path overload on a path that does not begin
with `:/`) returns `RESVG_OK` with the non-null tree `t`, whose view-box the
engine reports as `(x, y, w, h)`, then `load` returns `true`, and afterwards
`isValid()` is `true`, `errorString()` is empty, `viewBoxF()` is
`(x, y, w, h)` and `defaultSizeF()` is `(w, h)`; and `defaultSize()` is `(m, n)`
when `w` and `h` are the integers `m` and `n` and these are between
-2147483647 and 2147483647, the range on which `qRound` is defined. -/
theorem load_engine_ok (eng : Engine) (env : Env) (d : Data) (t : Handle)
    (x y w h : qreal)
    (hvb : eng.get_image_viewbox (some t) = ⟨x, y, w, h⟩) :
    (∀ data : QByteArray,
      eng.parse_tree_from_data data (Data.reset eng env d).1.opt = (RESVG_OK, some t) →
      ∃ r, load_QByteArray eng env d data = some r ∧
        r.ret = true ∧ isValid r.d = true ∧ errorString r.d = "" ∧
        viewBoxF r.d = ⟨x, y, w, h⟩ ∧ defaultSizeF r.d = ⟨w, h⟩ ∧
        (∀ m n : Int, w = (m : qreal) → h = (n : qreal) →
          -2147483647 ≤ m → m ≤ 2147483647 → -2147483647 ≤ n → n ≤ 2147483647 →
          (defaultSize r.d).wd = m ∧ (defaultSize r.d).ht = n)) ∧
    (∀ filePath : QString,
      QString.startsWith filePath ":/" = false →
      eng.parse_tree_from_file (toCStr filePath)
          { (Data.reset eng env d).1.opt with path := some (toCStr filePath) }
        = (RESVG_OK, some t) →
      ∃ r, load_QString eng env d filePath = some r ∧
        r.ret = true ∧ isValid r.d = true ∧ errorString r.d = "" ∧
        viewBoxF r.d = ⟨x, y, w, h⟩ ∧ defaultSizeF r.d = ⟨w, h⟩ ∧
        (∀ m n : Int, w = (m : qreal) → h = (n : qreal) →
          -2147483647 ≤ m → m ≤ 2147483647 → -2147483647 ≤ n → n ≤ 2147483647 →
          (defaultSize r.d).wd = m ∧ (defaultSize r.d).ht = n)) := by
  constructor
  · intro data hparse
    unfold load_QByteArray
    simp only [hparse, hvb]
    refine ⟨_, rfl, rfl, rfl, rfl, rfl, rfl, ?_⟩
    intro m n hm hn hm1 hm2 hn1 hn2
    subst hm; subst hn
    simp [defaultSize, defaultSizeF, QRectF.size, QSizeF.toSize,
      qRound_intCast m hm1 hm2, qRound_intCast n hn1 hn2]
  · intro filePath hpre hparse
    unfold load_QString
    simp only [hpre, hparse, hvb]
    refine ⟨_, rfl, rfl, rfl, rfl, rfl, rfl, ?_⟩
    intro m n hm hn hm1 hm2 hn1 hn2
    subst hm; subst hn
    simp [defaultSize, defaultSizeF, QRectF.size, QSizeF.toSize,
      qRound_intCast m hm1 hm2, qRound_intCast n hn1 hn2]

/-- C4 (amended) at a concrete input: on the demo engine, whose tree 1 has the
view-box `(0, 0, 100, 100)`, loading the payload `[60]` or the file `a.svg` into
an instance that failed its last load gives `defaultSize() == (100, 100)`. -/
theorem load_engine_ok_witness :
    (∃ r, load_QByteArray Demo.engine Demo.env Demo.failed [60] = some r ∧
        r.ret = true ∧ isValid r.d = true ∧ errorString r.d = "" ∧
        viewBoxF r.d = ⟨0, 0, 100, 100⟩ ∧ defaultSizeF r.d = ⟨100, 100⟩ ∧
        (defaultSize r.d).wd = 100 ∧ (defaultSize r.d).ht = 100) ∧
    (∃ r, load_QString Demo.engine Demo.env Demo.failed "a.svg" = some r ∧
        r.ret = true ∧ isValid r.d = true ∧ errorString r.d = "" ∧
        viewBoxF r.d = ⟨0, 0, 100, 100⟩ ∧ defaultSizeF r.d = ⟨100, 100⟩ ∧
        (defaultSize r.d).wd = 100 ∧ (defaultSize r.d).ht = 100) := by
  have key := load_engine_ok Demo.engine Demo.env Demo.failed 1 0 0 100 100 rfl
  obtain ⟨r, h1, h2, h3, h4, h5, h6, h7⟩ := key.1 [60] rfl
  obtain ⟨r', g1, g2, g3, g4, g5, g6, g7⟩ := key.2 "a.svg" rfl rfl
  exact ⟨⟨r, h1, h2, h3, h4, h5, h6,
          h7 100 100 (by norm_num) (by norm_num) (by decide) (by decide) (by decide)
            (by decide)⟩,
         ⟨r', g1, g2, g3, g4, g5, g6,
          g7 100 100 (by norm_num) (by norm_num) (by decide) (by decide) (by decide)
            (by decide)⟩⟩

/-- C6: `isEmpty()` is `true` when the handle is null.  When a handle is present
`isEmpty()` is the negation of what `resvg_is_image_empty(handle)` returns; so,
`resvg_is_image_empty` returning `true` exactly for a tree that has nodes,
`isEmpty()` is `true` exactly when the engine reports that the document has no
renderable nodes.  Both a never-loaded instance and a loaded document without
nodes give `isEmpty() == true`. -/
theorem isEmpty_spec (eng : Engine) (d : Data) :
    (d.tree = none → isEmpty eng d = true) ∧
    (∀ t : Handle, d.tree = some t → isEmpty eng d = !eng.is_image_empty t) ∧
    (∀ hasNodes : Handle → Bool, is_image_empty_contract eng hasNodes →
      (∀ t : Handle, d.tree = some t → (isEmpty eng d = true ↔ hasNodes t = false)) ∧
      (isEmpty eng d = true ↔
        (d.tree = none ∨ ∃ t : Handle, d.tree = some t ∧ hasNodes t = false))) := by
  refine ⟨?_, ?_, ?_⟩
  · intro h
    simp [isEmpty, h]
  · intro t h
    simp [isEmpty, h]
  · intro hasNodes hc
    constructor
    · intro t h
      simp [isEmpty, h, hc t]
    · cases h : d.tree with
      | none => simp [isEmpty, h]
      | some t => simp [isEmpty, h, hc t]

/-- C6 at concrete inputs: the demo engine keeps the contract (its tree 1 has
nodes, its tree 2 has none).  The new instance and the instance loaded with the
tree 2 are empty; the instance loaded with the tree 1 is not. -/
theorem isEmpty_spec_witness :
    isEmpty Demo.engine Demo.fresh = true ∧
    (isEmpty Demo.engine Demo.loadedEmpty = true ↔ Demo.hasNodes 2 = false) ∧
    isEmpty Demo.engine Demo.loadedEmpty = true ∧
    (isEmpty Demo.engine Demo.loaded = true ↔ Demo.hasNodes 1 = false) ∧
    isEmpty Demo.engine Demo.loaded = false :=
  ⟨(isEmpty_spec Demo.engine Demo.fresh).1 rfl,
   ((isEmpty_spec Demo.engine Demo.loadedEmpty).2.2 Demo.hasNodes (fun _ => rfl)).1 2 rfl,
   rfl,
   ((isEmpty_spec Demo.engine Demo.loaded).2.2 Demo.hasNodes (fun _ => rfl)).1 1 rfl,
   rfl⟩

/-- C7: with a null handle, whatever the engine and the id, `elementExists` is
`false`, `boundsOnElement` and `boundingBox` are the zero rectangle,
`transformForElement` is the identity and `viewBoxF` is the zero rectangle (the
values do not depend on the engine, which is not consulted); with a handle
present, `boundsOnElement(id)` is the zero rectangle when `resvg_get_node_bbox`
reports failure and `transformForElement(id)` is the identity when
`resvg_get_node_transform` reports failure. -/
theorem queries_neutral (eng : Engine) (d : Data) (id : QString) :
    (d.tree = none →
      elementExists eng d id = false ∧
      boundsOnElement eng d id = ⟨0, 0, 0, 0⟩ ∧
      boundingBox eng d = ⟨0, 0, 0, 0⟩ ∧
      transformForElement eng d id = ⟨1, 0, 0, 1, 0, 0⟩ ∧
      viewBoxF d = ⟨0, 0, 0, 0⟩) ∧
    (∀ t : Handle, d.tree = some t →
      (eng.get_node_bbox t (constData id) = none → boundsOnElement eng d id = ⟨0, 0, 0, 0⟩) ∧
      (eng.get_node_transform t (constData id) = none →
        transformForElement eng d id = ⟨1, 0, 0, 1, 0, 0⟩)) := by
  constructor
  · intro h
    simp [elementExists, boundsOnElement, boundingBox, transformForElement, viewBoxF, h,
      QRectF.new, QTransform.new]
  · intro t h
    constructor
    · intro hb
      simp [boundsOnElement, h, hb, QRectF.new]
    · intro hb
      simp [transformForElement, h, hb, QTransform.new]

/-- C7 at concrete inputs: the new demo instance and the id `rect1` (which the
demo engine knows), and the loaded demo instance with the unknown id `nope`. -/
theorem queries_neutral_witness :
    (elementExists Demo.engine Demo.fresh "rect1" = false ∧
      boundsOnElement Demo.engine Demo.fresh "rect1" = ⟨0, 0, 0, 0⟩ ∧
      boundingBox Demo.engine Demo.fresh = ⟨0, 0, 0, 0⟩ ∧
      transformForElement Demo.engine Demo.fresh "rect1" = ⟨1, 0, 0, 1, 0, 0⟩ ∧
      viewBoxF Demo.fresh = ⟨0, 0, 0, 0⟩) ∧
    (boundsOnElement Demo.engine Demo.loaded "nope" = ⟨0, 0, 0, 0⟩ ∧
      transformForElement Demo.engine Demo.loaded "nope" = ⟨1, 0, 0, 1, 0, 0⟩) :=
  ⟨(queries_neutral Demo.engine Demo.fresh "rect1").1 rfl,
   ((queries_neutral Demo.engine Demo.loaded "nope").2 1 rfl).1 rfl,
   ((queries_neutral Demo.engine Demo.loaded "nope").2 1 rfl).2 rfl⟩

/-- C8 (the claim fails): on the new demo instance, whose handle is null,
`defaultSizeF()` is `(-1, -1)`, not `(0, 0)`, and `defaultSize()` is `(-1, -1)`,
not `(0, 0)`. -/
theorem defaultSize_null_handle_counterexample :
    Demo.fresh.tree = none ∧
    defaultSizeF Demo.fresh = ⟨-1, -1⟩ ∧ defaultSizeF Demo.fresh ≠ ⟨0, 0⟩ ∧
    defaultSize Demo.fresh = QSize.mk (-1) (-1) ∧ defaultSize Demo.fresh ≠ QSize.mk 0 0 := by
  have h1 : defaultSizeF Demo.fresh = ⟨-1, -1⟩ := rfl
  have h2 : defaultSize Demo.fresh = QSize.mk (-1) (-1) := by
    simp [defaultSize, h1, QSizeF.toSize, qRound_neg_one]
  refine ⟨rfl, h1, ?_, h2, ?_⟩
  · rw [h1]
    intro h
    have := congrArg QSizeF.wd h
    norm_num at this
  · rw [h2]
    decide

/-- C8 (amended): with a null handle `defaultSizeF()` is the default-constructed
`QSizeF()`, Qt's invalid size of width -1 and height -1, and `defaultSize()` is
the invalid integer size `(-1, -1)`, which is `QSize()`. -/
theorem defaultSize_null_handle (d : Data) (h : d.tree = none) :
    defaultSizeF d = QSizeF.new ∧ defaultSizeF d = ⟨-1, -1⟩ ∧
    defaultSize d = QSize.mk (-1) (-1) ∧ defaultSize d = QSize.new ∧
    (defaultSize d).isValid = false := by
  have h1 : defaultSizeF d = ⟨-1, -1⟩ := by simp [defaultSizeF, h, QSizeF.new]
  have h2 : defaultSize d = QSize.mk (-1) (-1) := by
    simp [defaultSize, h1, QSizeF.toSize, qRound_neg_one]
  refine ⟨h1, h1, h2, h2, ?_⟩
  rw [h2]
  decide

/-- C8 (amended) at a concrete input: the instance after a failed load. -/
theorem defaultSize_null_handle_witness :
    defaultSizeF Demo.failed = QSizeF.new ∧ defaultSizeF Demo.failed = ⟨-1, -1⟩ ∧
    defaultSize Demo.failed = QSize.mk (-1) (-1) ∧ defaultSize Demo.failed = QSize.new ∧
    (defaultSize Demo.failed).isValid = false :=
  defaultSize_null_handle Demo.failed rfl

/-- C9: with a live handle, when `resvg_get_node_bbox` reports the box
`(x, y, width, height)` for the id, `boundsOnElement(id)` is the rectangle with
origin `(x, y)`, width `height` and height `width`; when
`resvg_get_image_bbox` reports a box, `boundingBox()` is built from it in the
same swapped way. -/
theorem bounds_swapped (eng : Engine) (d : Data) (t : Handle) (id : QString)
    (bbox : resvg_rect) (ht : d.tree = some t) :
    (eng.get_node_bbox t (constData id) = some bbox →
      boundsOnElement eng d id = ⟨bbox.x, bbox.y, bbox.height, bbox.width⟩ ∧
      (boundsOnElement eng d id).w = bbox.height ∧
      (boundsOnElement eng d id).h = bbox.width) ∧
    (eng.get_image_bbox t = some bbox →
      boundingBox eng d = ⟨bbox.x, bbox.y, bbox.height, bbox.width⟩ ∧
      (boundingBox eng d).w = bbox.height ∧
      (boundingBox eng d).h = bbox.width) := by
  constructor
  · intro hb
    simp [boundsOnElement, ht, hb]
  · intro hb
    simp [boundingBox, ht, hb]

/-- C9 at a concrete input: the demo engine reports the box `(10, 20, 30, 40)`
(width 30, height 40) for `rect1` and for the whole image of tree 1; the
wrapper returns a rectangle of width 40 and height 30. -/
theorem bounds_swapped_witness :
    (boundsOnElement Demo.engine Demo.loaded "rect1" = ⟨10, 20, 40, 30⟩ ∧
      (boundsOnElement Demo.engine Demo.loaded "rect1").w = 40 ∧
      (boundsOnElement Demo.engine Demo.loaded "rect1").h = 30) ∧
    (boundingBox Demo.engine Demo.loaded = ⟨10, 20, 40, 30⟩ ∧
      (boundingBox Demo.engine Demo.loaded).w = 40 ∧
      (boundingBox Demo.engine Demo.loaded).h = 30) :=
  ⟨(bounds_swapped Demo.engine Demo.loaded 1 "rect1" ⟨10, 20, 30, 40⟩ rfl).1 rfl,
   (bounds_swapped Demo.engine Demo.loaded 1 "rect1" ⟨10, 20, 30, 40⟩ rfl).2 rfl⟩

/-- The image `renderToImage` returns has the size of the image it created:
painting does not resize the paint device. -/
theorem renderToImage_size_eq_create (eng : Engine) (env : Env) (d : Data) (size : QSize) :
    (renderToImage eng env d size).1.size = (QImage.create env (renderToImage_size d size)).size := by
  unfold renderToImage QPainter.end_
  simp only
  split <;> rfl

/-- C10 (the claim fails): on the new demo instance `renderToImage()` without a
size returns an image of size `(0, 0)` while `defaultSize()` is `(-1, -1)`; and
on the loaded demo instance the valid size `(0, 5)` gives an image of size
`(0, 0)`. -/
theorem renderToImage_size_counterexample :
    (QSize.new.isValid = false ∧
      (renderToImage Demo.engine Demo.env Demo.fresh QSize.new).1.size = QSize.mk 0 0 ∧
      defaultSize Demo.fresh = QSize.mk (-1) (-1) ∧
      (renderToImage Demo.engine Demo.env Demo.fresh QSize.new).1.size
        ≠ defaultSize Demo.fresh) ∧
    (QSize.isValid (QSize.mk 0 5) = true ∧
      (renderToImage Demo.engine Demo.env Demo.loaded (QSize.mk 0 5)).1.size = QSize.mk 0 0 ∧
      (renderToImage Demo.engine Demo.env Demo.loaded (QSize.mk 0 5)).1.size ≠ QSize.mk 0 5) := by
  have hd : defaultSize Demo.fresh = QSize.mk (-1) (-1) := by
    simp [defaultSize, defaultSizeF, Demo.fresh, QSizeF.new, QSizeF.toSize, qRound_neg_one]
  have h1 : (renderToImage Demo.engine Demo.env Demo.fresh QSize.new).1.size = QSize.mk 0 0 := by
    rw [renderToImage_size_eq_create]
    have hs : renderToImage_size Demo.fresh QSize.new = QSize.mk (-1) (-1) := by
      unfold renderToImage_size
      rw [hd]
      rfl
    rw [hs]
    rfl
  have h2 : (renderToImage Demo.engine Demo.env Demo.loaded (QSize.mk 0 5)).1.size = QSize.mk 0 0 := by
    rw [renderToImage_size_eq_create]
    rfl
  refine ⟨⟨rfl, h1, hd, ?_⟩, rfl, h2, ?_⟩
  · rw [h1, hd]
    decide
  · rw [h2]
    decide

/-- C10 (amended): `renderToImage(S)` creates its image with the size `S` when `S`
is valid and with `defaultSize()` otherwise, whatever the instance state.  The
returned image has exactly that size when the size is not empty (width and
height at least 1) and the pixel buffer can be allocated; otherwise it is the
null image, of size `(0, 0)`. -/
theorem renderToImage_size_spec (eng : Engine) (env : Env) (d : Data) (S : QSize) :
    (S.isValid = true → 1 ≤ S.wd → 1 ≤ S.ht → env.canAllocate S = true →
      (renderToImage eng env d S).1.size = S) ∧
    (S.isValid = false → 1 ≤ (defaultSize d).wd → 1 ≤ (defaultSize d).ht →
      env.canAllocate (defaultSize d) = true →
      (renderToImage eng env d S).1.size = defaultSize d) ∧
    (S.isValid = true → renderToImage_size d S = S) ∧
    (S.isValid = false → renderToImage_size d S = defaultSize d) ∧
    ((renderToImage_size d S).isEmpty = true ∨
        env.canAllocate (renderToImage_size d S) = false →
      (renderToImage eng env d S).1.size = QSize.mk 0 0 ∧
      (renderToImage eng env d S).1.isNull = true) := by
  have hv : S.isValid = true → renderToImage_size d S = S := by
    intro h; simp [renderToImage_size, h]
  have hi : S.isValid = false → renderToImage_size d S = defaultSize d := by
    intro h; simp [renderToImage_size, h]
  have hcreate : ∀ s : QSize, 1 ≤ s.wd → 1 ≤ s.ht → env.canAllocate s = true →
      (QImage.create env s).size = s := by
    intro s h1 h2 h3
    have e : s.isEmpty = false := by
      simp [QSize.isEmpty]; omega
    simp [QImage.create, e, h3]
  refine ⟨?_, ?_, hv, hi, ?_⟩
  · intro h h1 h2 h3
    rw [renderToImage_size_eq_create, hv h]
    exact hcreate S h1 h2 h3
  · intro h h1 h2 h3
    rw [renderToImage_size_eq_create, hi h]
    exact hcreate _ h1 h2 h3
  · intro h
    have hn : (QImage.create env (renderToImage_size d S)) = ⟨true, QSize.mk 0 0, []⟩ := by
      unfold QImage.create
      rcases h with h | h <;> simp [h]
    constructor
    · rw [renderToImage_size_eq_create, hn]
    · unfold renderToImage QPainter.end_
      simp only [hn]
      split <;> rfl

/-- C10 (amended) at concrete inputs: on the loaded demo instance (default size
`(100, 100)`) the size `(2, 3)` gives an image of size `(2, 3)`, no size gives an
image of size `defaultSize()`, and the valid but empty size `(0, 5)` gives the
null image. -/
theorem renderToImage_size_spec_witness :
    (renderToImage Demo.engine Demo.env Demo.loaded (QSize.mk 2 3)).1.size = QSize.mk 2 3 ∧
    (renderToImage Demo.engine Demo.env Demo.loaded QSize.new).1.size
      = defaultSize Demo.loaded ∧
    renderToImage_size Demo.loaded (QSize.mk 2 3) = QSize.mk 2 3 ∧
    renderToImage_size Demo.loaded QSize.new = defaultSize Demo.loaded ∧
    ((renderToImage Demo.engine Demo.env Demo.loaded (QSize.mk 0 5)).1.size = QSize.mk 0 0 ∧
      (renderToImage Demo.engine Demo.env Demo.loaded (QSize.mk 0 5)).1.isNull = true) := by
  have hd : defaultSize Demo.loaded = QSize.mk 100 100 := by
    have h := qRound_intCast 100 (by decide) (by decide)
    simp at h
    simp [defaultSize, defaultSizeF, Demo.loaded, QRectF.size, QSizeF.toSize, h]
  exact
    ⟨(renderToImage_size_spec Demo.engine Demo.env Demo.loaded (QSize.mk 2 3)).1 rfl (by decide)
        (by decide) rfl,
     (renderToImage_size_spec Demo.engine Demo.env Demo.loaded QSize.new).2.1 rfl
        (by rw [hd]; decide) (by rw [hd]; decide) (by rw [hd]; rfl),
     (renderToImage_size_spec Demo.engine Demo.env Demo.loaded (QSize.mk 2 3)).2.2.1 rfl,
     (renderToImage_size_spec Demo.engine Demo.env Demo.loaded QSize.new).2.2.2.1 rfl,
     (renderToImage_size_spec Demo.engine Demo.env Demo.loaded (QSize.mk 0 5)).2.2.2.2 (Or.inl rfl)⟩

/-! ### Status codes and the fatal branch -/

/-- On a declared status code `errorToString` returns a message. -/
theorem errorToString_isSome_of_declared (s : Int) (h0 : 0 ≤ s) (h6 : s ≤ 6) :
    ∃ msg, errorToString s = some msg := by
  have h : s = 0 ∨ s = 1 ∨ s = 2 ∨ s = 3 ∨ s = 4 ∨ s = 5 ∨ s = 6 := by omega
  rcases h with h | h | h | h | h | h | h <;> subst h <;>
    simp [errorToString, RESVG_OK, RESVG_ERROR_NOT_AN_UTF8_STR,
      RESVG_ERROR_FILE_WRITE_FAILED, RESVG_ERROR_INVALID_FILE_SUFFIX,
      RESVG_ERROR_MALFORMED_GZIP, RESVG_ERROR_INVALID_SIZE, RESVG_ERROR_PARSING_FAILED]

/-- The fatal branch of `errorToString` is taken exactly outside 0..6. -/
theorem errorToString_eq_none_iff (err : Int) :
    errorToString err = none ↔ (err < 0 ∨ 6 < err) := by
  constructor
  · intro h
    by_contra hc
    obtain ⟨msg, hm⟩ := errorToString_isSome_of_declared err (by omega) (by omega)
    rw [hm] at h
    exact Option.noConfusion h
  · intro h
    unfold errorToString
    simp only [RESVG_OK, RESVG_ERROR_NOT_AN_UTF8_STR, RESVG_ERROR_FILE_WRITE_FAILED,
      RESVG_ERROR_INVALID_FILE_SUFFIX, RESVG_ERROR_MALFORMED_GZIP, RESVG_ERROR_INVALID_SIZE,
      RESVG_ERROR_PARSING_FAILED]
    rw [if_neg (by omega), if_neg (by omega), if_neg (by omega), if_neg (by omega),
      if_neg (by omega), if_neg (by omega), if_neg (by omega)]

/-- A message of a failure code is not empty. -/
theorem errorToString_ne_empty (s : Int) (h1 : 1 ≤ s) (h6 : s ≤ 6) :
    ∃ msg, errorToString s = some msg ∧ msg ≠ "" := by
  have h : s = 1 ∨ s = 2 ∨ s = 3 ∨ s = 4 ∨ s = 5 ∨ s = 6 := by omega
  rcases h with h | h | h | h | h | h <;> subst h <;>
    simp [errorToString, RESVG_OK, RESVG_ERROR_NOT_AN_UTF8_STR,
      RESVG_ERROR_FILE_WRITE_FAILED, RESVG_ERROR_INVALID_FILE_SUFFIX,
      RESVG_ERROR_MALFORMED_GZIP, RESVG_ERROR_INVALID_SIZE, RESVG_ERROR_PARSING_FAILED]

/-- The bytes overload reaches `Q_UNREACHABLE()` exactly when the status the
engine returns is outside 0..6. -/
theorem load_QByteArray_eq_none_iff (eng : Engine) (env : Env) (d : Data)
    (data : QByteArray) :
    load_QByteArray eng env d data = none ↔
      ((eng.parse_tree_from_data data (Data.reset eng env d).1.opt).1 < 0 ∨
        6 < (eng.parse_tree_from_data data (Data.reset eng env d).1.opt).1) := by
  unfold load_QByteArray
  simp only
  by_cases h : (eng.parse_tree_from_data data (Data.reset eng env d).1.opt).1 = RESVG_OK
  · rw [if_neg (by simpa using h)]
    simp only [RESVG_OK] at h
    constructor
    · intro hc; exact Option.noConfusion hc
    · intro hc; omega
  · rw [if_pos h]
    rw [← errorToString_eq_none_iff]
    cases hm : errorToString (eng.parse_tree_from_data data (Data.reset eng env d).1.opt).1 <;>
      simp

/-- The file-path overload on a path that does not begin with `:/` reaches
`Q_UNREACHABLE()` exactly when the status the engine returns is outside 0..6. -/
theorem load_QString_eq_none_iff (eng : Engine) (env : Env) (d : Data)
    (filePath : QString) (hpre : QString.startsWith filePath ":/" = false) :
    load_QString eng env d filePath = none ↔
      ((eng.parse_tree_from_file (toCStr filePath)
          { (Data.reset eng env d).1.opt with path := some (toCStr filePath) }).1 < 0 ∨
        6 < (eng.parse_tree_from_file (toCStr filePath)
          { (Data.reset eng env d).1.opt with path := some (toCStr filePath) }).1) := by
  unfold load_QString
  simp only [hpre]
  by_cases h : (eng.parse_tree_from_file (toCStr filePath)
          { (Data.reset eng env d).1.opt with path := some (toCStr filePath) }).1 = RESVG_OK
  · simp [h, RESVG_OK]
  · rw [← errorToString_eq_none_iff]
    cases hm : errorToString (eng.parse_tree_from_file (toCStr filePath)
          { (Data.reset eng env d).1.opt with path := some (toCStr filePath) }).1 <;>
      simp [h, hm]

theorem load_QByteArray_isSome (eng : Engine) (env : Env) (hdecl : Session.DeclaredStatus eng)
    (d : Data) (data : QByteArray) : ∃ r, load_QByteArray eng env d data = some r := by
  cases h : load_QByteArray eng env d data with
  | some r => exact ⟨r, rfl⟩
  | none =>
    rw [load_QByteArray_eq_none_iff] at h
    have := hdecl.1 data (Data.reset eng env d).1.opt
    omega

theorem load_QString_isSome (eng : Engine) (env : Env) (hdecl : Session.DeclaredStatus eng)
    (d : Data) (filePath : QString) : ∃ r, load_QString eng env d filePath = some r := by
  by_cases hpre : QString.startsWith filePath ":/" = true
  · unfold load_QString
    simp only [hpre, if_true]
    cases env.readFile filePath with
    | none => exact ⟨_, rfl⟩
    | some bytes => exact load_QByteArray_isSome eng env hdecl d bytes
  · have hpre2 : QString.startsWith filePath ":/" = false := by simpa using hpre
    cases h : load_QString eng env d filePath with
    | some r => exact ⟨r, rfl⟩
    | none =>
      rw [load_QString_eq_none_iff eng env d filePath hpre2] at h
      have := hdecl.2 (toCStr filePath)
        { (Data.reset eng env d).1.opt with path := some (toCStr filePath) }
      omega

/-! ### What `load` leaves in the fields it does not compute -/

/-- The bytes overload: options, scale factor and calls of any result. -/
theorem load_QByteArray_frame (eng : Engine) (env : Env) (d : Data) (data : QByteArray)
    (r : Result Bool) (h : load_QByteArray eng env d data = some r) :
    r.d.opt = (Data.reset eng env d).1.opt ∧
    r.d.scaleFactor = d.scaleFactor ∧
    r.d.tree = (eng.parse_tree_from_data data (Data.reset eng env d).1.opt).2 ∧
    r.calls = (Data.reset eng env d).2 ++
      [Call.parse_tree_from_data data (Data.reset eng env d).1.opt] := by
  unfold load_QByteArray at h
  simp only at h
  split_ifs at h with herr
  · cases hm : errorToString (eng.parse_tree_from_data data (Data.reset eng env d).1.opt).1 with
    | none => rw [hm] at h; exact Option.noConfusion h
    | some msg =>
      rw [hm] at h
      simp only [Option.some.injEq] at h
      subst h
      exact ⟨rfl, rfl, rfl, rfl⟩
  · simp only [Option.some.injEq] at h
    subst h
    exact ⟨rfl, rfl, rfl, rfl⟩

/-- The file-path overload on a path that does not begin with `:/`: options,
scale factor and calls of any result. -/
theorem load_QString_frame (eng : Engine) (env : Env) (d : Data) (filePath : QString)
    (hpre : QString.startsWith filePath ":/" = false)
    (r : Result Bool) (h : load_QString eng env d filePath = some r) :
    r.d.opt = { (Data.reset eng env d).1.opt with path := some (toCStr filePath) } ∧
    r.d.scaleFactor = d.scaleFactor ∧
    r.d.tree = (eng.parse_tree_from_file (toCStr filePath)
      { (Data.reset eng env d).1.opt with path := some (toCStr filePath) }).2 ∧
    r.calls = (Data.reset eng env d).2 ++
      [Call.qstrdup (toCStr filePath),
       Call.parse_tree_from_file (toCStr filePath)
         { (Data.reset eng env d).1.opt with path := some (toCStr filePath) }] := by
  unfold load_QString at h
  simp only [hpre, Bool.false_eq_true, if_false] at h
  split_ifs at h with herr
  · cases hm : errorToString (eng.parse_tree_from_file (toCStr filePath)
        { (Data.reset eng env d).1.opt with path := some (toCStr filePath) }).1 with
    | none => rw [hm] at h; exact Option.noConfusion h
    | some msg =>
      rw [hm] at h
      simp only [Option.some.injEq] at h
      subst h
      exact ⟨rfl, rfl, rfl, rfl⟩
  · simp only [Option.some.injEq] at h
    subst h
    exact ⟨rfl, rfl, rfl, rfl⟩

/-- C11: `setDevicePixelRatio(s)` stores `s` as the scale factor and leaves the
options (so their DPI), the handle, the cached view-box and the error string
as they are.  After the next `reset`, or the next `load` of bytes or of a path
that does not begin with `:/`, whatever its outcome, the DPI of the options is
`96 * s` and the scale factor is still `s`; such a `load` does return when the
engine returns a declared status code. -/
theorem setDevicePixelRatio_then_reset_or_load (eng : Engine) (env : Env) (d : Data)
    (s : qreal) :
    ((setDevicePixelRatio d s).scaleFactor = s ∧
      (setDevicePixelRatio d s).opt = d.opt ∧
      (setDevicePixelRatio d s).opt.dpi = d.opt.dpi ∧
      (setDevicePixelRatio d s).tree = d.tree ∧
      (setDevicePixelRatio d s).viewBox = d.viewBox ∧
      (setDevicePixelRatio d s).errMsg = d.errMsg) ∧
    ((Data.reset eng env (setDevicePixelRatio d s)).1.opt.dpi = 96 * s ∧
      (Data.reset eng env (setDevicePixelRatio d s)).1.scaleFactor = s) ∧
    (∀ (data : QByteArray) (r : Result Bool),
      load_QByteArray eng env (setDevicePixelRatio d s) data = some r →
      r.d.opt.dpi = 96 * s ∧ r.d.scaleFactor = s) ∧
    (∀ (filePath : QString) (r : Result Bool),
      QString.startsWith filePath ":/" = false →
      load_QString eng env (setDevicePixelRatio d s) filePath = some r →
      r.d.opt.dpi = 96 * s ∧ r.d.scaleFactor = s) ∧
    (Session.DeclaredStatus eng →
      (∀ data : QByteArray,
        ∃ r, load_QByteArray eng env (setDevicePixelRatio d s) data = some r) ∧
      (∀ filePath : QString,
        ∃ r, load_QString eng env (setDevicePixelRatio d s) filePath = some r)) := by
  refine ⟨⟨rfl, rfl, rfl, rfl, rfl, rfl⟩, ⟨rfl, rfl⟩, ?_, ?_, ?_⟩
  · intro data r h
    obtain ⟨h1, h2, -, -⟩ := load_QByteArray_frame eng env _ data r h
    rw [h1, h2]
    exact ⟨rfl, rfl⟩
  · intro filePath r hpre h
    obtain ⟨h1, h2, -, -⟩ := load_QString_frame eng env _ filePath hpre r h
    rw [h1, h2]
    exact ⟨rfl, rfl⟩
  · intro hdecl
    exact ⟨fun data => load_QByteArray_isSome eng env hdecl _ data,
           fun filePath => load_QString_isSome eng env hdecl _ filePath⟩

/-- The demo engine returns only the status codes 0 and 6. -/
theorem demo_engine_declared : Session.DeclaredStatus Demo.engine := by
  constructor
  · intro data opt
    show 0 ≤ (if data = [] then ((6 : Int), (none : Option Handle))
        else if data = [0] then (0, some 2) else (0, some 1)).1 ∧
      (if data = [] then ((6 : Int), (none : Option Handle))
        else if data = [0] then (0, some 2) else (0, some 1)).1 ≤ 6
    split_ifs <;> simp
  · intro path opt
    show 0 ≤ (if path = "a.svg" then ((0 : Int), some 1) else (6, (none : Option Handle))).1 ∧
      (if path = "a.svg" then ((0 : Int), some 1) else (6, (none : Option Handle))).1 ≤ 6
    split_ifs <;> simp

/-- C11 at a concrete input: the loaded demo instance (DPI 96) and the scale
factor 2.  The setter leaves the DPI at 96; a reset, a load of the payload `[60]`
or of the file `b.svg` (which fails) brings it to `96 * 2`. -/
theorem setDevicePixelRatio_then_reset_or_load_witness :
    (setDevicePixelRatio Demo.loaded 2).opt.dpi = Demo.loaded.opt.dpi ∧
    (Data.reset Demo.engine Demo.env (setDevicePixelRatio Demo.loaded 2)).1.opt.dpi = 96 * 2 ∧
    (∃ r, load_QByteArray Demo.engine Demo.env (setDevicePixelRatio Demo.loaded 2) [60]
        = some r ∧ r.d.opt.dpi = 96 * 2 ∧ r.d.scaleFactor = 2) ∧
    (∃ r, load_QString Demo.engine Demo.env (setDevicePixelRatio Demo.loaded 2) "b.svg"
        = some r ∧ r.ret = false ∧ r.d.opt.dpi = 96 * 2 ∧ r.d.scaleFactor = 2) := by
  have key := setDevicePixelRatio_then_reset_or_load Demo.engine Demo.env Demo.loaded 2
  obtain ⟨h1, h2, h3, h4, h5⟩ := key
  obtain ⟨r, hr⟩ := (h5 demo_engine_declared).1 [60]
  refine ⟨h1.2.2.1, h2.1, ⟨r, hr, h3 [60] r hr⟩, ?_⟩
  exact ⟨_, rfl, rfl, h4 "b.svg" _ rfl rfl⟩

/-- Every call of `reset` is `resvg_init_options`, a `qstrdup`, a `delete[]`, or
the `resvg_tree_destroy` of the handle the instance held. -/
theorem reset_calls_kind (eng : Engine) (env : Env) (d : Data) (c : Call)
    (hc : c ∈ (Data.reset eng env d).2) :
    c = Call.init_options ∨ (∃ s, c = Call.qstrdup s) ∨ (∃ s, c = Call.delete_array s) ∨
      (∃ h, c = Call.tree_destroy h ∧ d.tree = some h) := by
  unfold Data.reset Data.clear Data.init at hc
  simp only [List.mem_append, List.mem_cons, List.mem_singleton] at hc
  rcases hc with ((h1 | h2) | h3) | h4
  · cases ht : d.tree with
    | none => rw [ht] at h1; simp at h1
    | some t =>
      rw [ht] at h1
      simp only [List.mem_singleton] at h1
      exact Or.inr (Or.inr (Or.inr ⟨t, h1, rfl⟩))
  · cases hp : d.opt.path with
    | none => rw [hp] at h2; simp at h2
    | some s =>
      rw [hp] at h2
      simp only [List.mem_singleton] at h2
      exact Or.inr (Or.inr (Or.inl ⟨s, h2⟩))
  · cases hp : d.opt.languages with
    | none => rw [hp] at h3; simp at h3
    | some s =>
      rw [hp] at h3
      simp only [List.mem_singleton] at h3
      exact Or.inr (Or.inr (Or.inl ⟨s, h3⟩))
  · rcases h4 with h4 | h4
    · exact Or.inl h4
    · simp only [List.not_mem_nil, or_false] at h4
      exact Or.inr (Or.inl ⟨_, h4⟩)

/-- C13: for every state `d`, `reset` gives a null handle, the zero view-box, an
empty error string, the font family "Times New Roman", the DPI
`96 * d.scaleFactor` and the scale factor of `d`; the source path is the one
`resvg_init_options` writes, so it is null when the engine's default path is
null.  The state is the one of a new instance with the scale factor (and the
DPI) of `d`, and is the state of a new instance when the scale factor is 1.
A second `reset` changes nothing, and with a null handle `reset` issues no
`resvg_tree_destroy`. -/
theorem reset_spec (eng : Engine) (env : Env) (d : Data) :
    (Data.reset eng env d).1.tree = none ∧
    (Data.reset eng env d).1.opt.path = eng.init_options.path ∧
    (eng.init_options.path = none → (Data.reset eng env d).1.opt.path = none) ∧
    (Data.reset eng env d).1.viewBox = ⟨0, 0, 0, 0⟩ ∧
    (Data.reset eng env d).1.errMsg = "" ∧
    (Data.reset eng env d).1.opt.font_family = some "Times New Roman" ∧
    (Data.reset eng env d).1.opt.dpi = 96 * d.scaleFactor ∧
    (Data.reset eng env d).1.scaleFactor = d.scaleFactor ∧
    (Data.reset eng env d).1 =
      { (ResvgRenderer.new eng env).1 with
        scaleFactor := d.scaleFactor,
        opt := { (ResvgRenderer.new eng env).1.opt with dpi := 96 * d.scaleFactor } } ∧
    (d.scaleFactor = 1 → (Data.reset eng env d).1 = (ResvgRenderer.new eng env).1) ∧
    (Data.reset eng env (Data.reset eng env d).1).1 = (Data.reset eng env d).1 ∧
    (d.tree = none → ∀ h, Call.tree_destroy h ∉ (Data.reset eng env d).2) := by
  refine ⟨rfl, rfl, fun h => h, rfl, rfl, rfl, rfl, rfl, rfl, ?_, rfl, ?_⟩
  · intro h1
    simp [Data.reset, Data.clear, Data.init, ResvgRenderer.new, Data.new, h1]
  · intro hnull h hmem
    rcases reset_calls_kind eng env d _ hmem with h1 | ⟨s, h1⟩ | ⟨s, h1⟩ | ⟨t, -, h2⟩
    · exact Call.noConfusion h1
    · exact Call.noConfusion h1
    · exact Call.noConfusion h1
    · rw [hnull] at h2
      exact Option.noConfusion h2

/-- C13 at concrete inputs: resetting the loaded demo instance (scale factor 1,
engine default path null) gives the new demo instance, with a null path; and
resetting the failed instance, whose handle is null, destroys no tree. -/
theorem reset_spec_witness :
    (Data.reset Demo.engine Demo.env Demo.loaded).1.opt.path = none ∧
    (Data.reset Demo.engine Demo.env Demo.loaded).1
      = (ResvgRenderer.new Demo.engine Demo.env).1 ∧
    (∀ h, Call.tree_destroy h ∉ (Data.reset Demo.engine Demo.env Demo.failed).2) :=
  ⟨(reset_spec Demo.engine Demo.env Demo.loaded).2.2.1 rfl,
   (reset_spec Demo.engine Demo.env Demo.loaded).2.2.2.2.2.2.2.2.2.1 rfl,
   (reset_spec Demo.engine Demo.env Demo.failed).2.2.2.2.2.2.2.2.2.2.2 rfl⟩

/-- C14: with a null handle `render` returns the painter as it is (state and
saved states included) and issues no call, whatever the engine.  With a handle
`t` the calls are exactly `save`, `setRenderHint(Antialiasing)`, one
`resvg_qt_render_to_canvas` on `t` with the size of the viewport, `restore`.
The engine receives the painter after `save` and the hint, with the hint on
when the painter is active.  When the engine leaves the saved states and the
activity of the painter untouched (and cannot change the state of an inactive
painter), the state after `render` is the state before, so the hint is back to
what it was, and so are the saved states. -/
theorem render_spec (eng : Engine) (d : Data) (p : QPainter) :
    (d.tree = none → ∀ eng2 : Engine, render eng2 d p = (p, [])) ∧
    (∀ t : Handle, d.tree = some t →
      (render eng d p).2 =
        [Call.painter_save, Call.painter_setRenderHint,
         Call.qt_render_to_canvas t d.opt ⟨toUInt p.viewport.width, toUInt p.viewport.height⟩,
         Call.painter_restore] ∧
      (render eng d p).1 =
        (eng.qt_render_to_canvas t d.opt ⟨toUInt p.viewport.width, toUInt p.viewport.height⟩
          p.save.setRenderHint_Antialiasing).restore ∧
      (p.active = true → p.save.setRenderHint_Antialiasing.state.antialiasing = true) ∧
      ((eng.qt_render_to_canvas t d.opt ⟨toUInt p.viewport.width, toUInt p.viewport.height⟩
            p.save.setRenderHint_Antialiasing).saved
          = p.save.setRenderHint_Antialiasing.saved →
        (eng.qt_render_to_canvas t d.opt ⟨toUInt p.viewport.width, toUInt p.viewport.height⟩
            p.save.setRenderHint_Antialiasing).active
          = p.save.setRenderHint_Antialiasing.active →
        (p.active = false →
          (eng.qt_render_to_canvas t d.opt
              ⟨toUInt p.viewport.width, toUInt p.viewport.height⟩
              p.save.setRenderHint_Antialiasing).state = p.state) →
        (render eng d p).1.state = p.state ∧
        (render eng d p).1.state.antialiasing = p.state.antialiasing ∧
        (render eng d p).1.saved = p.saved)) := by
  have hvp : p.save.setRenderHint_Antialiasing.viewport = p.viewport := by
    unfold QPainter.save QPainter.setRenderHint_Antialiasing QPainter.viewport
    cases ha : p.active <;> simp [ha]
  constructor
  · intro h eng2
    simp [render, h]
  · intro t ht
    have hr : render eng d p =
        ((eng.qt_render_to_canvas t d.opt
            ⟨toUInt p.viewport.width, toUInt p.viewport.height⟩
            p.save.setRenderHint_Antialiasing).restore,
         [Call.painter_save, Call.painter_setRenderHint,
          Call.qt_render_to_canvas t d.opt
            ⟨toUInt p.viewport.width, toUInt p.viewport.height⟩,
          Call.painter_restore]) := by
      simp [render, ht, hvp]
    refine ⟨by rw [hr], by rw [hr], ?_, ?_⟩
    · intro ha
      simp [QPainter.save, QPainter.setRenderHint_Antialiasing, ha]
    · intro hs hact hinact
      rw [hr]
      simp only
      cases ha : p.active with
      | true =>
        have hq_act : p.save.setRenderHint_Antialiasing.active = true := by
          simp [QPainter.save, QPainter.setRenderHint_Antialiasing, ha]
        have hq_saved : p.save.setRenderHint_Antialiasing.saved = p.state :: p.saved := by
          simp [QPainter.save, QPainter.setRenderHint_Antialiasing, ha]
        rw [hq_act] at hact
        rw [hq_saved] at hs
        simp [QPainter.restore, hact, hs]
      | false =>
        have hq : p.save.setRenderHint_Antialiasing = p := by
          simp [QPainter.save, QPainter.setRenderHint_Antialiasing, ha]
        rw [hq] at hs hact
        have hst := hinact ha
        rw [hq] at hst
        rw [hq]
        rw [ha] at hact
        simp [QPainter.restore, hact, hst, hs]

/-- C14 at concrete inputs: the new demo instance leaves the demo painter alone;
on the loaded demo instance the demo engine paints the 4 x 3 device once, between
`save` and `restore`, and the painter state (hint off, nothing saved) is back. -/
theorem render_spec_witness :
    render Demo.engine Demo.fresh Demo.painter = (Demo.painter, []) ∧
    (render Demo.engine Demo.loaded Demo.painter).2 =
      [Call.painter_save, Call.painter_setRenderHint,
       Call.qt_render_to_canvas 1 Demo.loaded.opt ⟨4, 3⟩, Call.painter_restore] ∧
    ((render Demo.engine Demo.loaded Demo.painter).1.state = Demo.painter.state ∧
      (render Demo.engine Demo.loaded Demo.painter).1.state.antialiasing
        = Demo.painter.state.antialiasing ∧
      (render Demo.engine Demo.loaded Demo.painter).1.saved = Demo.painter.saved) :=
  ⟨(render_spec Demo.engine Demo.fresh Demo.painter).1 rfl Demo.engine,
   ((render_spec Demo.engine Demo.loaded Demo.painter).2 1 rfl).1,
   ((render_spec Demo.engine Demo.loaded Demo.painter).2 1 rfl).2.2.2 rfl rfl
      (fun h => Bool.noConfusion h)⟩

/-- C15: for a path that begins with `:/` and whose resource opens with the
contents `B`, `load(path)` is `load(B)` from the same starting state: the same
outcome, return value, resulting state and calls.  No call of it is
`resvg_parse_tree_from_file`, and the source path of the options is the one
`resvg_init_options` writes, so it is null when the engine's default path is
null.  The call returns when the status of the data parse is a declared
one. -/
theorem load_resource_eq_load_bytes (eng : Engine) (env : Env) (d : Data)
    (filePath : QString) (B : QByteArray)
    (hpre : QString.startsWith filePath ":/" = true)
    (hread : env.readFile filePath = some B) :
    load_QString eng env d filePath = load_QByteArray eng env d B ∧
    (∀ r, load_QString eng env d filePath = some r →
      (∀ path opt, Call.parse_tree_from_file path opt ∉ r.calls) ∧
      r.d.opt.path = eng.init_options.path ∧
      (eng.init_options.path = none → r.d.opt.path = none)) ∧
    (0 ≤ (eng.parse_tree_from_data B (Data.reset eng env d).1.opt).1 →
      (eng.parse_tree_from_data B (Data.reset eng env d).1.opt).1 ≤ 6 →
      ∃ r, load_QString eng env d filePath = some r) := by
  have heq : load_QString eng env d filePath = load_QByteArray eng env d B := by
    unfold load_QString
    simp [hpre, hread]
  refine ⟨heq, ?_, ?_⟩
  · intro r hr
    rw [heq] at hr
    obtain ⟨h1, -, -, h4⟩ := load_QByteArray_frame eng env d B r hr
    refine ⟨?_, ?_, ?_⟩
    · intro path opt hmem
      rw [h4] at hmem
      simp only [List.mem_append, List.mem_singleton] at hmem
      rcases hmem with hmem | hmem
      · rcases reset_calls_kind eng env d _ hmem with h | ⟨s, h⟩ | ⟨s, h⟩ | ⟨t, h, -⟩ <;>
          exact Call.noConfusion h
      · exact Call.noConfusion hmem
    · rw [h1]; rfl
    · intro hnull
      rw [h1]
      exact hnull
  · intro h0 h6
    rw [heq]
    cases h : load_QByteArray eng env d B with
    | some r => exact ⟨r, rfl⟩
    | none =>
      rw [load_QByteArray_eq_none_iff] at h
      omega

/-- C15 at a concrete input: on the demo host with the resource `:/icon.svg` of
contents `[60]`, loading the path into the failed demo instance is loading
`[60]`; it succeeds, without a file parse and with a null source path. -/
theorem load_resource_eq_load_bytes_witness :
    load_QString Demo.engine Demo.envWithResource Demo.failed ":/icon.svg"
      = load_QByteArray Demo.engine Demo.envWithResource Demo.failed [60] ∧
    (∃ r, load_QString Demo.engine Demo.envWithResource Demo.failed ":/icon.svg" = some r ∧
      r.ret = true ∧
      (∀ path opt, Call.parse_tree_from_file path opt ∉ r.calls) ∧
      r.d.opt.path = none) := by
  have key := load_resource_eq_load_bytes Demo.engine Demo.envWithResource Demo.failed
    ":/icon.svg" [60] rfl rfl
  refine ⟨key.1, _, rfl, rfl, ?_, ?_⟩
  · exact (key.2.1 _ rfl).1
  · exact (key.2.1 _ rfl).2.2 rfl

/-! ### Sequences of calls -/

/-- Every call other than a `load` returns. -/
theorem step_eq_none_iff (eng : Engine) (env : Env) (d : Data) (op : Session.Op) :
    Session.step eng env d op = none ↔
      ((∃ filePath, op = Session.Op.load_QString filePath ∧
          load_QString eng env d filePath = none) ∨
       (∃ data, op = Session.Op.load_QByteArray data ∧
          load_QByteArray eng env d data = none)) := by
  cases op with
  | load_QString filePath =>
    cases h : load_QString eng env d filePath <;> simp [Session.step, h]
  | load_QByteArray data =>
    cases h : load_QByteArray eng env d data <;> simp [Session.step, h]
  | _ => simp [Session.step]

/-- With an engine that returns only declared status codes every call returns. -/
theorem step_isSome (eng : Engine) (env : Env) (hdecl : Session.DeclaredStatus eng)
    (d : Data) (op : Session.Op) : ∃ r, Session.step eng env d op = some r := by
  cases h : Session.step eng env d op with
  | some r => exact ⟨r, rfl⟩
  | none =>
    rw [step_eq_none_iff] at h
    rcases h with ⟨filePath, -, h⟩ | ⟨data, -, h⟩
    · obtain ⟨r, hr⟩ := load_QString_isSome eng env hdecl d filePath
      rw [hr] at h
      exact Option.noConfusion h
    · obtain ⟨r, hr⟩ := load_QByteArray_isSome eng env hdecl d data
      rw [hr] at h
      exact Option.noConfusion h

/-- With an engine that returns only declared status codes every sequence of
calls runs to its end. -/
theorem run_isSome (eng : Engine) (env : Env) (hdecl : Session.DeclaredStatus eng)
    (ops : List Session.Op) : ∀ d : Data, ∃ res, Session.run eng env d ops = some res := by
  induction ops with
  | nil => intro d; exact ⟨_, rfl⟩
  | cons op ops ih =>
    intro d
    obtain ⟨r, hr⟩ := step_isSome eng env hdecl d op
    obtain ⟨res, hres⟩ := ih r.d
    exact ⟨(res.1, r.calls ++ res.2), by simp [Session.run, hr, hres]⟩

theorem session_isSome (eng : Engine) (env : Env) (hdecl : Session.DeclaredStatus eng)
    (ops : List Session.Op) : ∃ T, Session.session eng env ops = some T := by
  obtain ⟨res, hres⟩ := run_isSome eng env hdecl ops (ResvgRenderer.new eng env).1
  exact ⟨(ResvgRenderer.new eng env).2 ++ res.2 ++ Data.destroy res.1,
    by simp [Session.session, hres]⟩

/-- C17: `errorToString` reaches `Q_UNREACHABLE()` exactly on the integers outside
0..6.  When the parse entry points return only the seven declared status
codes, every `load`, of either overload and from every state, returns, and so
does every sequence of calls on an instance.  The fatal branch is the only
way not to return: a call that does not return is a `load`; the bytes
overload does not return exactly when the status is outside 0..6, and so does
the file-path overload on a path that does not begin with `:/`. -/
theorem fatal_branch_spec (eng : Engine) (env : Env) :
    (∀ err : Int, errorToString err = none ↔ (err < 0 ∨ 6 < err)) ∧
    (Session.DeclaredStatus eng →
      (∀ (d : Data) (data : QByteArray), ∃ r, load_QByteArray eng env d data = some r) ∧
      (∀ (d : Data) (filePath : QString), ∃ r, load_QString eng env d filePath = some r) ∧
      (∀ ops : List Session.Op, ∃ T, Session.session eng env ops = some T)) ∧
    (∀ (d : Data) (op : Session.Op), Session.step eng env d op = none →
      (∃ filePath, op = Session.Op.load_QString filePath ∧
          load_QString eng env d filePath = none) ∨
      (∃ data, op = Session.Op.load_QByteArray data ∧
          load_QByteArray eng env d data = none)) ∧
    (∀ (d : Data) (data : QByteArray),
      load_QByteArray eng env d data = none ↔
        ((eng.parse_tree_from_data data (Data.reset eng env d).1.opt).1 < 0 ∨
          6 < (eng.parse_tree_from_data data (Data.reset eng env d).1.opt).1)) ∧
    (∀ (d : Data) (filePath : QString), QString.startsWith filePath ":/" = false →
      (load_QString eng env d filePath = none ↔
        ((eng.parse_tree_from_file (toCStr filePath)
            { (Data.reset eng env d).1.opt with path := some (toCStr filePath) }).1 < 0 ∨
          6 < (eng.parse_tree_from_file (toCStr filePath)
            { (Data.reset eng env d).1.opt with path := some (toCStr filePath) }).1))) :=
  ⟨errorToString_eq_none_iff,
   fun hdecl => ⟨fun d data => load_QByteArray_isSome eng env hdecl d data,
                 fun d filePath => load_QString_isSome eng env hdecl d filePath,
                 fun ops => session_isSome eng env hdecl ops⟩,
   fun d op h => (step_eq_none_iff eng env d op).1 h,
   fun d data => load_QByteArray_eq_none_iff eng env d data,
   fun d filePath hpre => load_QString_eq_none_iff eng env d filePath hpre⟩

/-- C17 at concrete inputs: the demo engine returns only 0 and 6, so the loads of
the empty payload and of the file `b.svg` return, and so does a session of
three calls. -/
theorem fatal_branch_spec_witness :
    (∃ r, load_QByteArray Demo.engine Demo.env Demo.loaded [] = some r) ∧
    (∃ r, load_QString Demo.engine Demo.env Demo.loaded "b.svg" = some r) ∧
    (∃ T, Session.session Demo.engine Demo.env
      [Session.Op.load_QByteArray [60], Session.Op.isValid,
       Session.Op.load_QString "b.svg"] = some T) ∧
    (load_QString Demo.engine Demo.env Demo.loaded "b.svg" = none ↔
      ((Demo.engine.parse_tree_from_file (toCStr "b.svg")
          { (Data.reset Demo.engine Demo.env Demo.loaded).1.opt with
            path := some (toCStr "b.svg") }).1 < 0 ∨
        6 < (Demo.engine.parse_tree_from_file (toCStr "b.svg")
          { (Data.reset Demo.engine Demo.env Demo.loaded).1.opt with
            path := some (toCStr "b.svg") }).1)) :=
  ⟨((fatal_branch_spec Demo.engine Demo.env).2.1 demo_engine_declared).1 Demo.loaded [],
   ((fatal_branch_spec Demo.engine Demo.env).2.1 demo_engine_declared).2.1 Demo.loaded "b.svg",
   ((fatal_branch_spec Demo.engine Demo.env).2.1 demo_engine_declared).2.2 _,
   (fatal_branch_spec Demo.engine Demo.env).2.2.2.2 Demo.loaded "b.svg" rfl⟩

/-- C19: on the status codes 0..6, `errorToString(s)` is the empty string exactly
for `s = RESVG_OK`, and distinct codes have distinct messages.  So after a
`load` for which the engine returned a failure code `s` in 1..6, `load` has
returned `false` and `errorString()` is the non-empty message of `s`, which no
other code has. -/
theorem errorToString_injective_spec :
    (∀ s : Int, 0 ≤ s → s ≤ 6 → (errorToString s = some "" ↔ s = RESVG_OK)) ∧
    (∀ s t : Int, 0 ≤ s → s ≤ 6 → 0 ≤ t → t ≤ 6 →
      errorToString s = errorToString t → s = t) ∧
    (∀ (eng : Engine) (env : Env) (d : Data) (data : QByteArray) (s : Int),
      1 ≤ s → s ≤ 6 →
      (eng.parse_tree_from_data data (Data.reset eng env d).1.opt).1 = s →
      ∃ r, load_QByteArray eng env d data = some r ∧ r.ret = false ∧
        errorString r.d ≠ "" ∧ errorToString s = some (errorString r.d)) ∧
    (∀ (eng : Engine) (env : Env) (d : Data) (filePath : QString) (s : Int),
      1 ≤ s → s ≤ 6 → QString.startsWith filePath ":/" = false →
      (eng.parse_tree_from_file (toCStr filePath)
          { (Data.reset eng env d).1.opt with path := some (toCStr filePath) }).1 = s →
      ∃ r, load_QString eng env d filePath = some r ∧ r.ret = false ∧
        errorString r.d ≠ "" ∧ errorToString s = some (errorString r.d)) := by
  refine ⟨?_, ?_, ?_, ?_⟩
  · intro s h0 h6
    have h : s = 0 ∨ s = 1 ∨ s = 2 ∨ s = 3 ∨ s = 4 ∨ s = 5 ∨ s = 6 := by omega
    rcases h with h | h | h | h | h | h | h <;> subst h <;> decide
  · intro s t hs0 hs6 ht0 ht6
    have h : s = 0 ∨ s = 1 ∨ s = 2 ∨ s = 3 ∨ s = 4 ∨ s = 5 ∨ s = 6 := by omega
    have h' : t = 0 ∨ t = 1 ∨ t = 2 ∨ t = 3 ∨ t = 4 ∨ t = 5 ∨ t = 6 := by omega
    rcases h with h | h | h | h | h | h | h <;> subst h <;>
      rcases h' with h' | h' | h' | h' | h' | h' | h' <;> subst h' <;> decide
  · intro eng env d data s h1 h6 hs
    obtain ⟨msg, hmsg, hne⟩ := errorToString_ne_empty s h1 h6
    have hnok : s ≠ RESVG_OK := by simp only [RESVG_OK]; omega
    unfold load_QByteArray
    simp only [hs, hnok, ne_eq, not_false_eq_true, if_true, hmsg]
    exact ⟨_, rfl, rfl, hne, rfl⟩
  · intro eng env d filePath s h1 h6 hpre hs
    obtain ⟨msg, hmsg, hne⟩ := errorToString_ne_empty s h1 h6
    have hnok : s ≠ RESVG_OK := by simp only [RESVG_OK]; omega
    unfold load_QString
    simp only [hpre, Bool.false_eq_true, if_false, hs, hnok, ne_eq, not_false_eq_true,
      if_true, hmsg]
    exact ⟨_, rfl, rfl, hne, rfl⟩

/-- C19 at concrete inputs: the codes 6 and 3 have different messages, and the
demo engine's failure 6 on the empty payload and on the file `b.svg` leaves the
non-empty message of 6. -/
theorem errorToString_injective_spec_witness :
    (errorToString 6 = some "" ↔ (6 : Int) = RESVG_OK) ∧
    (errorToString 6 = errorToString 3 → (6 : Int) = 3) ∧
    (∃ r, load_QByteArray Demo.engine Demo.env Demo.loaded [] = some r ∧ r.ret = false ∧
      errorString r.d ≠ "" ∧ errorToString 6 = some (errorString r.d)) ∧
    (∃ r, load_QString Demo.engine Demo.env Demo.loaded "b.svg" = some r ∧ r.ret = false ∧
      errorString r.d ≠ "" ∧ errorToString 6 = some (errorString r.d)) :=
  ⟨errorToString_injective_spec.1 6 (by decide) (by decide),
   errorToString_injective_spec.2.1 6 3 (by decide) (by decide) (by decide) (by decide),
   errorToString_injective_spec.2.2.1 Demo.engine Demo.env Demo.loaded [] 6
     (by decide) (by decide) rfl,
   errorToString_injective_spec.2.2.2 Demo.engine Demo.env Demo.loaded "b.svg" 6
     (by decide) (by decide) rfl rfl⟩

/-! ### The queries do not assign through `d` -/

theorem body_isValid (d : Data) : (Body.isValid).run d = (isValid d, d) := rfl

theorem body_errorString (d : Data) : (Body.errorString).run d = (errorString d, d) := rfl

theorem body_isEmpty (eng : Engine) (d : Data) :
    (Body.isEmpty eng).run d = (isEmpty eng d, d) := by
  unfold Body.isEmpty isEmpty
  cases h : d.tree <;>
    simp [StateT.run, bind, StateT.bind, get, getThe, MonadStateOf.get, StateT.get, pure,
      StateT.pure, h]

theorem body_defaultSizeF (d : Data) :
    (Body.defaultSizeF).run d = (defaultSizeF d, d) := by
  unfold Body.defaultSizeF defaultSizeF
  cases h : d.tree <;>
    simp [StateT.run, bind, StateT.bind, get, getThe, MonadStateOf.get, StateT.get, pure,
      StateT.pure, h]

theorem body_defaultSize (d : Data) :
    (Body.defaultSize).run d = (defaultSize d, d) := by
  unfold Body.defaultSize Body.defaultSizeF defaultSize defaultSizeF
  cases h : d.tree <;>
    simp [StateT.run, bind, StateT.bind, get, getThe, MonadStateOf.get, StateT.get, pure,
      StateT.pure, h]

theorem body_viewBoxF (d : Data) :
    (Body.viewBoxF).run d = (viewBoxF d, d) := by
  unfold Body.viewBoxF viewBoxF
  cases h : d.tree <;>
    simp [StateT.run, bind, StateT.bind, get, getThe, MonadStateOf.get, StateT.get, pure,
      StateT.pure, h]

theorem body_boundsOnElement (eng : Engine) (id : QString) (d : Data) :
    (Body.boundsOnElement eng id).run d = (boundsOnElement eng d id, d) := by
  unfold Body.boundsOnElement boundsOnElement
  cases h : d.tree with
  | none =>
    simp [StateT.run, bind, StateT.bind, get, getThe, MonadStateOf.get, StateT.get, pure,
      StateT.pure, h]
  | some t =>
    cases hb : eng.get_node_bbox t (constData id) <;>
      simp [StateT.run, bind, StateT.bind, get, getThe, MonadStateOf.get, StateT.get, pure,
      StateT.pure, h, hb]

theorem body_boundingBox (eng : Engine) (d : Data) :
    (Body.boundingBox eng).run d = (boundingBox eng d, d) := by
  unfold Body.boundingBox boundingBox
  cases h : d.tree with
  | none =>
    simp [StateT.run, bind, StateT.bind, get, getThe, MonadStateOf.get, StateT.get, pure,
      StateT.pure, h]
  | some t =>
    cases hb : eng.get_image_bbox t <;>
      simp [StateT.run, bind, StateT.bind, get, getThe, MonadStateOf.get, StateT.get, pure,
      StateT.pure, h, hb]

theorem body_elementExists (eng : Engine) (id : QString) (d : Data) :
    (Body.elementExists eng id).run d = (elementExists eng d id, d) := by
  unfold Body.elementExists elementExists
  cases h : d.tree <;>
    simp [StateT.run, bind, StateT.bind, get, getThe, MonadStateOf.get, StateT.get, pure,
      StateT.pure, h]

theorem body_transformForElement (eng : Engine) (id : QString) (d : Data) :
    (Body.transformForElement eng id).run d = (transformForElement eng d id, d) := by
  unfold Body.transformForElement transformForElement
  cases h : d.tree with
  | none =>
    simp [StateT.run, bind, StateT.bind, get, getThe, MonadStateOf.get, StateT.get, pure,
      StateT.pure, h]
  | some t =>
    cases hb : eng.get_node_transform t (constData id) <;>
      simp [StateT.run, bind, StateT.bind, get, getThe, MonadStateOf.get, StateT.get, pure,
      StateT.pure, h, hb]

/-- The body of `setDevicePixelRatio` assigns through `d`: the `Data` it leaves is
the one with the new scale factor. -/
theorem body_setDevicePixelRatio (s : qreal) (d : Data) :
    (Body.setDevicePixelRatio s).run d = ((), setDevicePixelRatio d s) := rfl

/-- The `Data` a body leaves is not the one it was given when the body assigns:
`setDevicePixelRatio(2)` on the loaded demo instance (scale factor 1). -/
theorem body_setDevicePixelRatio_mutates :
    ((Body.setDevicePixelRatio 2).run Demo.loaded).2 ≠ Demo.loaded := by
  rw [body_setDevicePixelRatio]
  intro h
  have h2 := congrArg Data.scaleFactor h
  simp [setDevicePixelRatio, Demo.loaded] at h2

/-- A query leaves the instance as it is and issues no call. -/
theorem step_query (eng : Engine) (env : Env) (d : Data) (op : Session.Op)
    (hq : op.isQuery = true) : ∃ v, Session.step eng env d op = some ⟨v, d, []⟩ := by
  cases op <;> first
    | exact Bool.noConfusion hq
    | (simp only [Session.step, body_isValid, body_errorString, body_isEmpty,
        body_defaultSizeF, body_defaultSize, body_viewBoxF, body_boundsOnElement,
        body_boundingBox, body_elementExists, body_transformForElement]
       exact ⟨_, rfl⟩)

/-- A sequence of queries leaves the instance as it is and issues no call. -/
theorem run_queries (eng : Engine) (env : Env) (d : Data) (qs : List Session.Op)
    (hq : ∀ q ∈ qs, q.isQuery = true) : Session.run eng env d qs = some (d, []) := by
  induction qs with
  | nil => rfl
  | cons q qs ih =>
    obtain ⟨v, hv⟩ := step_query eng env d q (hq q (List.mem_cons_self q qs))
    have ih2 := ih (fun q2 h2 => hq q2 (List.mem_cons_of_mem q h2))
    simp [Session.run, hv, ih2]

/-- C16: the bodies of `isValid`, `errorString`, `isEmpty`, `defaultSizeF`,
`defaultSize`, `viewBoxF`, `boundsOnElement`, `boundingBox`, `elementExists` and
`transformForElement`, run on any `Data` with any engine and id, leave that
`Data` with every field as it was, and return the value of the query.  So a
call of a query, and a sequence of them, leaves the state as it is and issues
no call, and `boundsOnElement(id)`, any queries, and `boundsOnElement(id)`
again return the same rectangle twice, the one the engine gives for the handle
and the id. -/
theorem queries_do_not_mutate (eng : Engine) (env : Env) (d : Data) :
    ((Body.isValid).run d = (isValid d, d) ∧
      (Body.errorString).run d = (errorString d, d) ∧
      (Body.isEmpty eng).run d = (isEmpty eng d, d) ∧
      (Body.defaultSizeF).run d = (defaultSizeF d, d) ∧
      (Body.defaultSize).run d = (defaultSize d, d) ∧
      (Body.viewBoxF).run d = (viewBoxF d, d) ∧
      (Body.boundingBox eng).run d = (boundingBox eng d, d) ∧
      (∀ id : QString,
        (Body.boundsOnElement eng id).run d = (boundsOnElement eng d id, d) ∧
        (Body.elementExists eng id).run d = (elementExists eng d id, d) ∧
        (Body.transformForElement eng id).run d = (transformForElement eng d id, d))) ∧
    (∀ op : Session.Op, op.isQuery = true →
      ∃ v, Session.step eng env d op = some ⟨v, d, []⟩) ∧
    (∀ qs : List Session.Op, (∀ q ∈ qs, q.isQuery = true) →
      Session.run eng env d qs = some (d, [])) ∧
    (∀ (id : QString) (qs : List Session.Op), (∀ q ∈ qs, q.isQuery = true) →
      ∃ r1 res r2,
        Session.step eng env d (Session.Op.boundsOnElement id) = some r1 ∧
        Session.run eng env r1.d qs = some res ∧
        Session.step eng env res.1 (Session.Op.boundsOnElement id) = some r2 ∧
        r2.ret = r1.ret ∧
        r1.ret = Session.Value.rectF (boundsOnElement eng d id) ∧
        r2.d = d) := by
  refine ⟨⟨body_isValid d, body_errorString d, body_isEmpty eng d, body_defaultSizeF d,
            body_defaultSize d, body_viewBoxF d, body_boundingBox eng d,
            fun id => ⟨body_boundsOnElement eng id d, body_elementExists eng id d,
                       body_transformForElement eng id d⟩⟩,
          fun op hq => step_query eng env d op hq,
          fun qs hq => run_queries eng env d qs hq, ?_⟩
  intro id qs hq
  have hstep : Session.step eng env d (Session.Op.boundsOnElement id)
      = some ⟨Session.Value.rectF (boundsOnElement eng d id), d, []⟩ := by
    simp only [Session.step, body_boundsOnElement]
  exact ⟨⟨Session.Value.rectF (boundsOnElement eng d id), d, []⟩, (d, []),
    ⟨Session.Value.rectF (boundsOnElement eng d id), d, []⟩,
    hstep, run_queries eng env d qs hq, hstep, rfl, rfl, rfl⟩

/-- C16 at concrete inputs: on the loaded demo instance `isEmpty` changes nothing,
and `boundsOnElement("rect1")` gives the same rectangle before and after
`elementExists("rect1")` and `viewBoxF`. -/
theorem queries_do_not_mutate_witness :
    (∃ v, Session.step Demo.engine Demo.env Demo.loaded Session.Op.isEmpty
      = some ⟨v, Demo.loaded, []⟩) ∧
    (∃ r1 res r2,
      Session.step Demo.engine Demo.env Demo.loaded (Session.Op.boundsOnElement "rect1")
        = some r1 ∧
      Session.run Demo.engine Demo.env r1.d
        [Session.Op.elementExists "rect1", Session.Op.viewBoxF] = some res ∧
      Session.step Demo.engine Demo.env res.1 (Session.Op.boundsOnElement "rect1")
        = some r2 ∧
      r2.ret = r1.ret ∧
      r1.ret = Session.Value.rectF (boundsOnElement Demo.engine Demo.loaded "rect1") ∧
      r2.d = Demo.loaded) :=
  ⟨(queries_do_not_mutate Demo.engine Demo.env Demo.loaded).2.1 Session.Op.isEmpty rfl,
   (queries_do_not_mutate Demo.engine Demo.env Demo.loaded).2.2.2 "rect1"
     [Session.Op.elementExists "rect1", Session.Op.viewBoxF] (by decide)⟩

/-! ### The invariant -/

theorem inv_reset (eng : Engine) (env : Env) (d : Data) :
    Session.Inv (Data.reset eng env d).1 :=
  ⟨fun _ => rfl, fun _ => rfl⟩

theorem inv_load_QByteArray (eng : Engine) (env : Env) (hc : Session.HandleIffOk eng)
    (d : Data) (data : QByteArray) (r : Result Bool)
    (h : load_QByteArray eng env d data = some r) : Session.Inv r.d := by
  have hiff := hc.1 data (Data.reset eng env d).1.opt
  unfold load_QByteArray at h
  simp only at h
  split_ifs at h with herr
  · cases hm : errorToString (eng.parse_tree_from_data data (Data.reset eng env d).1.opt).1 with
    | none => rw [hm] at h; exact Option.noConfusion h
    | some msg =>
      rw [hm] at h
      simp only [Option.some.injEq] at h
      subst h
      constructor
      · intro ht
        exact absurd (hiff.1 ht) herr
      · intro _
        rfl
  · simp only [Option.some.injEq] at h
    subst h
    have hok : (eng.parse_tree_from_data data (Data.reset eng env d).1.opt).1 = RESVG_OK := by
      by_contra hne
      exact herr hne
    constructor
    · intro _
      rfl
    · intro ht
      exact absurd ht (hiff.2 hok)

theorem inv_load_QString (eng : Engine) (env : Env) (hc : Session.HandleIffOk eng)
    (d : Data) (hd : Session.Inv d) (filePath : QString) (r : Result Bool)
    (h : load_QString eng env d filePath = some r) : Session.Inv r.d := by
  by_cases hpre : QString.startsWith filePath ":/" = true
  · unfold load_QString at h
    simp only [hpre, if_true] at h
    cases hread : env.readFile filePath with
    | none =>
      rw [hread] at h
      simp only [Option.some.injEq] at h
      subst h
      exact hd
    | some bytes =>
      rw [hread] at h
      exact inv_load_QByteArray eng env hc d bytes r h
  · have hpre2 : QString.startsWith filePath ":/" = false := by simpa using hpre
    have hiff := hc.2 (toCStr filePath)
      { (Data.reset eng env d).1.opt with path := some (toCStr filePath) }
    unfold load_QString at h
    simp only [hpre2, Bool.false_eq_true, if_false] at h
    split_ifs at h with herr
    · cases hm : errorToString (eng.parse_tree_from_file (toCStr filePath)
          { (Data.reset eng env d).1.opt with path := some (toCStr filePath) }).1 with
      | none => rw [hm] at h; exact Option.noConfusion h
      | some msg =>
        rw [hm] at h
        simp only [Option.some.injEq] at h
        subst h
        constructor
        · intro ht
          exact absurd (hiff.1 ht) herr
        · intro _
          rfl
    · simp only [Option.some.injEq] at h
      subst h
      have hok : (eng.parse_tree_from_file (toCStr filePath)
          { (Data.reset eng env d).1.opt with path := some (toCStr filePath) }).1
            = RESVG_OK := by
        by_contra hne
        exact herr hne
      constructor
      · intro _
        rfl
      · intro ht
        exact absurd ht (hiff.2 hok)

theorem inv_step (eng : Engine) (env : Env) (hc : Session.HandleIffOk eng)
    (d : Data) (hd : Session.Inv d) (op : Session.Op) (r : Result Session.Value)
    (h : Session.step eng env d op = some r) : Session.Inv r.d := by
  cases op with
  | load_QString filePath =>
    cases hl : load_QString eng env d filePath with
    | none => simp [Session.step, hl] at h
    | some r0 =>
      simp only [Session.step, hl, Option.some.injEq] at h
      subst h
      exact inv_load_QString eng env hc d hd filePath r0 hl
  | load_QByteArray data =>
    cases hl : load_QByteArray eng env d data with
    | none => simp [Session.step, hl] at h
    | some r0 =>
      simp only [Session.step, hl, Option.some.injEq] at h
      subst h
      exact inv_load_QByteArray eng env hc d data r0 hl
  | reset =>
    simp only [Session.step, Option.some.injEq] at h
    subst h
    exact inv_reset eng env d
  | _ =>
    simp only [Session.step, body_isValid, body_errorString, body_isEmpty,
      body_defaultSizeF, body_defaultSize, body_viewBoxF, body_boundsOnElement,
      body_boundingBox, body_elementExists, body_transformForElement, Option.some.injEq] at h
    subst h
    exact hd

theorem inv_run (eng : Engine) (env : Env) (hc : Session.HandleIffOk eng)
    (ops : List Session.Op) :
    ∀ (d : Data), Session.Inv d → ∀ res, Session.run eng env d ops = some res →
      Session.Inv res.1 := by
  induction ops with
  | nil =>
    intro d hd res h
    simp only [Session.run, Option.some.injEq] at h
    subst h
    exact hd
  | cons op ops ih =>
    intro d hd res h
    cases hs : Session.step eng env d op with
    | none => simp [Session.run, hs] at h
    | some r =>
      cases hr : Session.run eng env r.d ops with
      | none => simp [Session.run, hs, hr] at h
      | some res2 =>
        simp only [Session.run, hs, hr, Option.some.injEq] at h
        subst h
        exact ih r.d (inv_step eng env hc d hd op r hs) res2 hr

/-- C18: when the engine leaves a non-null handle exactly when it returns
`RESVG_OK`, the invariant "(1) a non-null handle comes with an empty error
string, (2) a null handle comes with the zero view-box" holds for a new
instance, is preserved by every call that returns (`load` of either overload,
`reset`, `setDevicePixelRatio`, and the `const` methods), and so holds in
every state reached from construction. -/
theorem invariant_reachable (eng : Engine) (env : Env) (hc : Session.HandleIffOk eng) :
    Session.Inv (ResvgRenderer.new eng env).1 ∧
    (∀ (d : Data) (op : Session.Op) (r : Result Session.Value),
      Session.Inv d → Session.step eng env d op = some r → Session.Inv r.d) ∧
    (∀ (ops : List Session.Op) (res : Data × List Call),
      Session.run eng env (ResvgRenderer.new eng env).1 ops = some res →
      (res.1.tree ≠ none → res.1.errMsg = "") ∧
      (res.1.tree = none → res.1.viewBox = ⟨0, 0, 0, 0⟩)) := by
  have h0 : Session.Inv (ResvgRenderer.new eng env).1 := ⟨fun _ => rfl, fun _ => rfl⟩
  refine ⟨h0, fun d op r hd h => inv_step eng env hc d hd op r h, ?_⟩
  intro ops res h
  exact inv_run eng env hc ops _ h0 res h

/-- The demo engine leaves a handle exactly when it returns `RESVG_OK`. -/
theorem demo_engine_handle_iff_ok : Session.HandleIffOk Demo.engine := by
  constructor
  · intro data opt
    show (if data = [] then ((6 : Int), (none : Option Handle))
        else if data = [0] then (0, some 2) else (0, some 1)).2 ≠ none ↔
      (if data = [] then ((6 : Int), (none : Option Handle))
        else if data = [0] then (0, some 2) else (0, some 1)).1 = RESVG_OK
    split_ifs <;> simp [RESVG_OK]
  · intro path opt
    show (if path = "a.svg" then ((0 : Int), some 1) else (6, (none : Option Handle))).2 ≠ none ↔
      (if path = "a.svg" then ((0 : Int), some 1) else (6, (none : Option Handle))).1
        = RESVG_OK
    split_ifs <;> simp [RESVG_OK]

/-- C18 at a concrete input: on the demo engine, after a successful load, a change
of the scale factor and a failed load, the handle is null and the view-box is
the zero rectangle. -/
theorem invariant_reachable_witness :
    ∃ res, Session.run Demo.engine Demo.env (ResvgRenderer.new Demo.engine Demo.env).1
        [Session.Op.load_QByteArray [60], Session.Op.setDevicePixelRatio 2,
         Session.Op.load_QString "b.svg"] = some res ∧
      (res.1.tree ≠ none → res.1.errMsg = "") ∧
      (res.1.tree = none → res.1.viewBox = ⟨0, 0, 0, 0⟩) := by
  obtain ⟨res, h⟩ := run_isSome Demo.engine Demo.env demo_engine_declared
    [Session.Op.load_QByteArray [60], Session.Op.setDevicePixelRatio 2,
     Session.Op.load_QString "b.svg"] (ResvgRenderer.new Demo.engine Demo.env).1
  exact ⟨res, h,
    (invariant_reachable Demo.engine Demo.env demo_engine_handle_iff_ok).2.2 _ res h⟩

/-! ### Ownership of handles and strings -/

theorem treeMonitor_append (eng : Engine) (a b : List Call) :
    ∀ live, Session.treeMonitor eng live (a ++ b) =
      (Session.treeMonitor eng live a).bind (fun l => Session.treeMonitor eng l b) := by
  induction a with
  | nil => intro live; simp [Session.treeMonitor]
  | cons c a ih =>
    intro live
    cases c <;> simp only [List.cons_append, Session.treeMonitor, Session.produced]
    all_goals first
      | exact ih live
      | (split <;> first | exact ih _ | rfl | (split <;> first | exact ih _ | rfl))

theorem stringMonitor_append (a b : List Call) :
    ∀ live, Session.stringMonitor live (a ++ b) =
      (Session.stringMonitor live a).bind (fun l => Session.stringMonitor l b) := by
  induction a with
  | nil => intro live; simp [Session.stringMonitor]
  | cons c a ih =>
    intro live
    cases c <;> simp only [List.cons_append, Session.stringMonitor]
    all_goals first
      | exact ih _
      | (split <;> first | exact ih _ | rfl)

theorem treeMonitor_clear (eng : Engine) (d : Data) :
    Session.treeMonitor eng d.tree (Data.clear d).2 = some none := by
  unfold Data.clear
  cases d.tree <;> cases d.opt.path <;> cases d.opt.languages <;>
    simp [Session.treeMonitor, Session.produced]

theorem treeMonitor_init (eng : Engine) (env : Env) (d : Data) (live : Option Handle) :
    Session.treeMonitor eng live (Data.init eng env d).2 = some live := by
  simp [Data.init, Session.treeMonitor, Session.produced]

theorem treeMonitor_reset (eng : Engine) (env : Env) (d : Data) :
    Session.treeMonitor eng d.tree (Data.reset eng env d).2 = some none := by
  unfold Data.reset
  simp only
  rw [treeMonitor_append, treeMonitor_clear]
  exact treeMonitor_init eng env (Data.clear d).1 none

theorem treeMonitor_render (eng : Engine) (d : Data) (p : QPainter) (live : Option Handle) :
    Session.treeMonitor eng live (render eng d p).2 = some live := by
  unfold render
  cases d.tree <;> simp [Session.treeMonitor, Session.produced]

theorem treeMonitor_load_QByteArray (eng : Engine) (env : Env) (d : Data)
    (data : QByteArray) (r : Result Bool) (h : load_QByteArray eng env d data = some r) :
    Session.treeMonitor eng d.tree r.calls = some r.d.tree := by
  obtain ⟨-, -, h3, h4⟩ := load_QByteArray_frame eng env d data r h
  rw [h4, h3, treeMonitor_append, treeMonitor_reset]
  cases hp : (eng.parse_tree_from_data data (Data.reset eng env d).1.opt).2 <;>
    simp [Session.treeMonitor, Session.produced, hp]

theorem treeMonitor_load_QString (eng : Engine) (env : Env) (d : Data)
    (filePath : QString) (r : Result Bool) (h : load_QString eng env d filePath = some r) :
    Session.treeMonitor eng d.tree r.calls = some r.d.tree := by
  by_cases hpre : QString.startsWith filePath ":/" = true
  · unfold load_QString at h
    simp only [hpre, if_true] at h
    cases hread : env.readFile filePath with
    | none =>
      rw [hread] at h
      simp only [Option.some.injEq] at h
      subst h
      rfl
    | some bytes =>
      rw [hread] at h
      exact treeMonitor_load_QByteArray eng env d bytes r h
  · have hpre2 : QString.startsWith filePath ":/" = false := by simpa using hpre
    obtain ⟨-, -, h3, h4⟩ := load_QString_frame eng env d filePath hpre2 r h
    rw [h4, h3, treeMonitor_append, treeMonitor_reset]
    cases hp : (eng.parse_tree_from_file (toCStr filePath)
        { (Data.reset eng env d).1.opt with path := some (toCStr filePath) }).2 <;>
      simp [Session.treeMonitor, Session.produced, hp]

theorem treeMonitor_step (eng : Engine) (env : Env) (d : Data) (op : Session.Op)
    (r : Result Session.Value) (h : Session.step eng env d op = some r) :
    Session.treeMonitor eng d.tree r.calls = some r.d.tree := by
  cases op with
  | load_QString filePath =>
    cases hl : load_QString eng env d filePath with
    | none => simp [Session.step, hl] at h
    | some r0 =>
      simp only [Session.step, hl, Option.some.injEq] at h
      subst h
      exact treeMonitor_load_QString eng env d filePath r0 hl
  | load_QByteArray data =>
    cases hl : load_QByteArray eng env d data with
    | none => simp [Session.step, hl] at h
    | some r0 =>
      simp only [Session.step, hl, Option.some.injEq] at h
      subst h
      exact treeMonitor_load_QByteArray eng env d data r0 hl
  | reset =>
    simp only [Session.step, Option.some.injEq] at h
    subst h
    exact treeMonitor_reset eng env d
  | render p =>
    simp only [Session.step, Option.some.injEq] at h
    subst h
    exact treeMonitor_render eng d p d.tree
  | renderToImage size =>
    simp only [Session.step, Option.some.injEq] at h
    subst h
    exact treeMonitor_render eng d _ d.tree
  | _ =>
    simp only [Session.step, body_isValid, body_errorString, body_isEmpty,
      body_defaultSizeF, body_defaultSize, body_viewBoxF, body_boundsOnElement,
      body_boundingBox, body_elementExists, body_transformForElement, Option.some.injEq] at h
    subst h
    rfl

theorem treeMonitor_run (eng : Engine) (env : Env) (ops : List Session.Op) :
    ∀ (d : Data) (res : Data × List Call), Session.run eng env d ops = some res →
      Session.treeMonitor eng d.tree res.2 = some res.1.tree := by
  induction ops with
  | nil =>
    intro d res h
    simp only [Session.run, Option.some.injEq] at h
    subst h
    rfl
  | cons op ops ih =>
    intro d res h
    cases hs : Session.step eng env d op with
    | none => simp [Session.run, hs] at h
    | some r =>
      cases hr : Session.run eng env r.d ops with
      | none => simp [Session.run, hs, hr] at h
      | some res2 =>
        simp only [Session.run, hs, hr, Option.some.injEq] at h
        subst h
        simp only
        rw [treeMonitor_append, treeMonitor_step eng env d op r hs]
        exact ih r.d res2 hr

theorem stringMonitor_clear (d : Data) :
    Session.stringMonitor (Session.ownedStrings d) (Data.clear d).2 = some [] := by
  unfold Data.clear Session.ownedStrings
  cases d.tree <;> cases d.opt.path <;> cases d.opt.languages <;>
    simp [Session.stringMonitor]

theorem ownedStrings_clear (d : Data) : Session.ownedStrings (Data.clear d).1 = [] := rfl

theorem stringMonitor_init (eng : Engine) (env : Env) (d : Data)
    (hpath : eng.init_options.path = none) :
    Session.stringMonitor [] (Data.init eng env d).2
      = some (Session.ownedStrings (Data.init eng env d).1) := by
  simp [Data.init, Session.stringMonitor, Session.ownedStrings, hpath]

theorem stringMonitor_reset (eng : Engine) (env : Env) (d : Data)
    (hpath : eng.init_options.path = none) :
    Session.stringMonitor (Session.ownedStrings d) (Data.reset eng env d).2
      = some (Session.ownedStrings (Data.reset eng env d).1) := by
  unfold Data.reset
  simp only
  rw [stringMonitor_append, stringMonitor_clear]
  exact stringMonitor_init eng env (Data.clear d).1 hpath

theorem ownedStrings_reset (eng : Engine) (env : Env) (d : Data)
    (hpath : eng.init_options.path = none) :
    Session.ownedStrings (Data.reset eng env d).1 = [toCStr env.bcp47Name] := by
  simp [Data.reset, Data.init, Session.ownedStrings, hpath]

theorem stringMonitor_render (eng : Engine) (d : Data) (p : QPainter) (live : List String) :
    Session.stringMonitor live (render eng d p).2 = some live := by
  unfold render
  cases d.tree <;> simp [Session.stringMonitor]

theorem stringMonitor_load_QByteArray (eng : Engine) (env : Env) (d : Data)
    (hpath : eng.init_options.path = none)
    (data : QByteArray) (r : Result Bool) (h : load_QByteArray eng env d data = some r) :
    Session.stringMonitor (Session.ownedStrings d) r.calls
      = some (Session.ownedStrings r.d) := by
  obtain ⟨h1, -, -, h4⟩ := load_QByteArray_frame eng env d data r h
  have ho : Session.ownedStrings r.d = Session.ownedStrings (Data.reset eng env d).1 := by
    unfold Session.ownedStrings
    rw [h1]
  rw [h4, ho, stringMonitor_append, stringMonitor_reset eng env d hpath]
  simp [Session.stringMonitor]

theorem stringMonitor_load_QString (eng : Engine) (env : Env) (d : Data)
    (hpath : eng.init_options.path = none)
    (filePath : QString) (r : Result Bool) (h : load_QString eng env d filePath = some r) :
    Session.stringMonitor (Session.ownedStrings d) r.calls
      = some (Session.ownedStrings r.d) := by
  by_cases hpre : QString.startsWith filePath ":/" = true
  · unfold load_QString at h
    simp only [hpre, if_true] at h
    cases hread : env.readFile filePath with
    | none =>
      rw [hread] at h
      simp only [Option.some.injEq] at h
      subst h
      rfl
    | some bytes =>
      rw [hread] at h
      exact stringMonitor_load_QByteArray eng env d hpath bytes r h
  · have hpre2 : QString.startsWith filePath ":/" = false := by simpa using hpre
    obtain ⟨h1, -, -, h4⟩ := load_QString_frame eng env d filePath hpre2 r h
    have ho : Session.ownedStrings r.d
        = toCStr filePath :: Session.ownedStrings (Data.reset eng env d).1 := by
      rw [ownedStrings_reset eng env d hpath]
      unfold Session.ownedStrings
      rw [h1]
      simp [Data.reset, Data.init]
    rw [h4, ho, stringMonitor_append, stringMonitor_reset eng env d hpath]
    simp [Session.stringMonitor]

theorem stringMonitor_step (eng : Engine) (env : Env) (d : Data)
    (hpath : eng.init_options.path = none) (op : Session.Op)
    (r : Result Session.Value) (h : Session.step eng env d op = some r) :
    Session.stringMonitor (Session.ownedStrings d) r.calls
      = some (Session.ownedStrings r.d) := by
  cases op with
  | load_QString filePath =>
    cases hl : load_QString eng env d filePath with
    | none => simp [Session.step, hl] at h
    | some r0 =>
      simp only [Session.step, hl, Option.some.injEq] at h
      subst h
      exact stringMonitor_load_QString eng env d hpath filePath r0 hl
  | load_QByteArray data =>
    cases hl : load_QByteArray eng env d data with
    | none => simp [Session.step, hl] at h
    | some r0 =>
      simp only [Session.step, hl, Option.some.injEq] at h
      subst h
      exact stringMonitor_load_QByteArray eng env d hpath data r0 hl
  | reset =>
    simp only [Session.step, Option.some.injEq] at h
    subst h
    exact stringMonitor_reset eng env d hpath
  | render p =>
    simp only [Session.step, Option.some.injEq] at h
    subst h
    exact stringMonitor_render eng d p _
  | renderToImage size =>
    simp only [Session.step, Option.some.injEq] at h
    subst h
    exact stringMonitor_render eng d _ _
  | _ =>
    simp only [Session.step, body_isValid, body_errorString, body_isEmpty,
      body_defaultSizeF, body_defaultSize, body_viewBoxF, body_boundsOnElement,
      body_boundingBox, body_elementExists, body_transformForElement, Option.some.injEq] at h
    subst h
    rfl

theorem stringMonitor_run (eng : Engine) (env : Env)
    (hpath : eng.init_options.path = none) (ops : List Session.Op) :
    ∀ (d : Data) (res : Data × List Call), Session.run eng env d ops = some res →
      Session.stringMonitor (Session.ownedStrings d) res.2
        = some (Session.ownedStrings res.1) := by
  induction ops with
  | nil =>
    intro d res h
    simp only [Session.run, Option.some.injEq] at h
    subst h
    rfl
  | cons op ops ih =>
    intro d res h
    cases hs : Session.step eng env d op with
    | none => simp [Session.run, hs] at h
    | some r =>
      cases hr : Session.run eng env r.d ops with
      | none => simp [Session.run, hs, hr] at h
      | some res2 =>
        simp only [Session.run, hs, hr, Option.some.injEq] at h
        subst h
        simp only
        rw [stringMonitor_append, stringMonitor_step eng env d hpath op r hs]
        exact ih r.d res2 hr

/-- C12: take any sequence of calls on one instance (`load` of either overload,
`reset`, `setDevicePixelRatio`, the queries, `render`, `renderToImage`), from
construction to destruction, and the list `T` of all calls issued.  Along `T`
every `resvg_tree_destroy(h)` is of the handle that is live at that moment and
leaves no handle live, every handle the engine produces arrives when no handle
is live, and no handle is live at the end: no handle is destroyed twice, at most
one is live at any time, and each is destroyed exactly once.  When the default
path of the engine is null, every `delete[]` in `T` is of a string duplicated
before and not yet released, and none is left at the end.  Before destruction
the live handle is the one the instance holds and the live strings are its
path and language tag.  When the engine returns only declared status codes
the sequence does run to its end. -/
theorem session_ownership (eng : Engine) (env : Env) (ops : List Session.Op) :
    (∀ T, Session.session eng env ops = some T →
      Session.treeMonitor eng none T = some none ∧
      (eng.init_options.path = none → Session.stringMonitor [] T = some [])) ∧
    (∀ res, Session.run eng env (ResvgRenderer.new eng env).1 ops = some res →
      Session.treeMonitor eng none ((ResvgRenderer.new eng env).2 ++ res.2)
        = some res.1.tree ∧
      (eng.init_options.path = none →
        Session.stringMonitor [] ((ResvgRenderer.new eng env).2 ++ res.2)
          = some (Session.ownedStrings res.1))) ∧
    (Session.DeclaredStatus eng → ∃ T, Session.session eng env ops = some T) := by
  have hnew_t : Session.treeMonitor eng none (ResvgRenderer.new eng env).2
      = some (ResvgRenderer.new eng env).1.tree :=
    treeMonitor_init eng env _ none
  have hnew_s : eng.init_options.path = none →
      Session.stringMonitor [] (ResvgRenderer.new eng env).2
        = some (Session.ownedStrings (ResvgRenderer.new eng env).1) :=
    fun hpath => stringMonitor_init eng env _ hpath
  have hrun : ∀ res, Session.run eng env (ResvgRenderer.new eng env).1 ops = some res →
      Session.treeMonitor eng none ((ResvgRenderer.new eng env).2 ++ res.2)
        = some res.1.tree ∧
      (eng.init_options.path = none →
        Session.stringMonitor [] ((ResvgRenderer.new eng env).2 ++ res.2)
          = some (Session.ownedStrings res.1)) := by
    intro res hres
    constructor
    · rw [treeMonitor_append, hnew_t]
      exact treeMonitor_run eng env ops _ res hres
    · intro hpath
      rw [stringMonitor_append, hnew_s hpath]
      exact stringMonitor_run eng env hpath ops _ res hres
  refine ⟨?_, hrun, fun hdecl => session_isSome eng env hdecl ops⟩
  intro T hT
  unfold Session.session at hT
  cases hres : Session.run eng env (ResvgRenderer.new eng env).1 ops with
  | none => rw [hres] at hT; exact Option.noConfusion hT
  | some res =>
    rw [hres] at hT
    simp only [Option.some.injEq] at hT
    subst hT
    obtain ⟨ht, hs⟩ := hrun res hres
    constructor
    · rw [treeMonitor_append, ht]
      exact treeMonitor_clear eng res.1
    · intro hpath
      rw [stringMonitor_append, hs hpath]
      exact stringMonitor_clear res.1

/-- C12 at a concrete input: a demo session with two successful loads, a failed
load, a reset, queries and a rendering.  The tree 1 is produced and destroyed
twice, each time while it is the live handle. -/
theorem session_ownership_witness :
    ∃ T, Session.session Demo.engine Demo.env
        [Session.Op.load_QByteArray [60], Session.Op.boundsOnElement "rect1",
         Session.Op.load_QString "a.svg", Session.Op.renderToImage (QSize.mk 2 2),
         Session.Op.load_QString "b.svg", Session.Op.load_QString ":/missing.svg",
         Session.Op.reset, Session.Op.isValid] = some T ∧
      Session.treeMonitor Demo.engine none T = some none ∧
      Session.stringMonitor [] T = some [] := by
  have key := session_ownership Demo.engine Demo.env
    [Session.Op.load_QByteArray [60], Session.Op.boundsOnElement "rect1",
     Session.Op.load_QString "a.svg", Session.Op.renderToImage (QSize.mk 2 2),
     Session.Op.load_QString "b.svg", Session.Op.load_QString ":/missing.svg",
     Session.Op.reset, Session.Op.isValid]
  obtain ⟨T, hT⟩ := key.2.2 demo_engine_declared
  exact ⟨T, hT, (key.1 T hT).1, (key.1 T hT).2 rfl⟩

/-- The handle monitor rejects a second `resvg_tree_destroy` of the same handle,
and a handle produced while another is live. -/
theorem treeMonitor_rejects :
    Session.treeMonitor Demo.engine (some 1) [Call.tree_destroy 1, Call.tree_destroy 1] = none ∧
    Session.treeMonitor Demo.engine (some 1)
      [Call.parse_tree_from_data [60] Demo.resetOptions] = none ∧
    Session.treeMonitor Demo.engine none
      [Call.parse_tree_from_data [60] Demo.resetOptions] = some (some 1) :=
  ⟨rfl, rfl, rfl⟩

/-- The string monitor rejects a `delete[]` of a string that is not live, and
reports a string that was never released. -/
theorem stringMonitor_rejects :
    Session.stringMonitor [] [Call.qstrdup "en", Call.delete_array "en",
      Call.delete_array "en"] = none ∧
    Session.stringMonitor [] [Call.qstrdup "en", Call.qstrdup "a.svg",
      Call.delete_array "en"] = some ["a.svg"] := by
  constructor <;> decide
